/-
Shallow embedding of the `algo_trade` opening-range-breakout strategy core
(`src/orb/...`) in Lean 4, together with theorems settling the frozen claims
about its specification.

Modelling conventions:
* Python `float` prices/premiums are modelled as `ℚ` (exact arithmetic; every
  comparison in the source is order-based, never float-rounding-based).
* `datetime` timestamps and `time`-of-day values are modelled as natural
  numbers (minutes); a candle's `.timestamp.time()` is the timestamp itself
  (single-day sessions).
* Mutable classes become state structures; each method returns the updated
  state (and the Python return value, where there is one).
* `None` becomes `Option.none`.
-/
import Mathlib

namespace AlgoTrade

/-! ## Core domain models (src/orb/models.py) -/

/-- Side enum (models.py). -/
inductive Side where
  | CALL
  | PUT
deriving DecidableEq, Repr

/-- ExitReason enum (models.py). -/
inductive ExitReason where
  | CANDLE_SL
  | PREMIUM_TRAIL_SL
  | PREMIUM_TARGET
  | FORCE_EXIT
  | MANUAL
deriving DecidableEq, Repr

/-- PositionState enum (models.py). -/
inductive PositionState where
  | IDLE
  | WAITING_ENTRY
  | ACTIVE_REGIME_A
  | ACTIVE_REGIME_B
  | CLOSED
deriving DecidableEq, Repr

/-- The exit-regime tag, `"A"`/`"B"` strings in the source. -/
inductive Regime where
  | A
  | B
deriving DecidableEq, Repr

/-- Candle (models.py). `open` is a Lean keyword, hence `open_`.
Timestamps are minutes (see header). -/
structure Candle where
  timestamp : ℕ
  open_ : ℚ
  high : ℚ
  low : ℚ
  close : ℚ
  volume : ℕ := 0
deriving DecidableEq, Repr

/-- Candle.is_bullish (models.py): `close >= open`. -/
def Candle.is_bullish (c : Candle) : Bool :=
  decide (c.open_ ≤ c.close)

/-- Candle.synthetic_ticks (models.py): bullish → O,L,H,C; bearish → O,H,L,C. -/
def Candle.synthetic_ticks (c : Candle) : List ℚ :=
  if c.is_bullish then [c.open_, c.low, c.high, c.close]
  else [c.open_, c.high, c.low, c.close]

/-- BreakoutInfo (models.py). -/
structure BreakoutInfo where
  side : Side
  breakout_candle_idx : ℕ
  h3 : ℚ
  l3 : ℚ
  h1 : ℚ
  l1 : ℚ
  confirmed_at : ℕ
deriving DecidableEq, Repr

/-- TrailingStep (config.py): `trigger` premium gain activating the step,
`trail_to` gain level to trail the SL to; `-1` means full exit. -/
structure TrailingStep where
  trigger : ℚ
  trail_to : ℚ
deriving DecidableEq, Repr

/-- TradeRecord (models.py). Only the fields the strategy core writes are kept;
`date` is merged into the timestamps. -/
structure TradeRecord where
  trade_id : ℕ
  side : Side
  entry_time : ℕ
  exit_time : ℕ
  underlying_entry : ℚ
  underlying_exit : ℚ
  h3 : ℚ
  l3 : ℚ
  h1 : ℚ
  l1 : ℚ
  strike : ℚ
  option_type : String
  option_symbol : String
  entry_premium : ℚ
  exit_premium : ℚ
  lots : ℕ
  lot_size : ℕ
  gross_pnl : ℚ
  charges : ℚ
  net_pnl : ℚ
  exit_reason : ExitReason
  re_entry_number : ℤ
  regime_at_exit : Regime
deriving DecidableEq, Repr

/-- Position (models.py): mutable per-session position state. -/
structure Position where
  state : PositionState := PositionState.IDLE
  side : Option Side := none
  breakout : Option BreakoutInfo := none
  entry_premium : ℚ := 0
  current_premium : ℚ := 0
  entry_time : Option ℕ := none
  underlying_at_entry : ℚ := 0
  strike : ℚ := 0
  option_type : String := ""
  option_symbol : String := ""
  lots : ℕ := 1
  premium_sl : Option ℚ := none
  highest_premium_gain : ℚ := 0
  last_triggered_ladder_idx : ℤ := -1
  call_entries_today : ℕ := 0
  put_entries_today : ℕ := 0
deriving DecidableEq, Repr

/-- Position.is_active (models.py). -/
def Position.is_active (p : Position) : Bool :=
  decide (p.state = PositionState.ACTIVE_REGIME_A ∨ p.state = PositionState.ACTIVE_REGIME_B)

/-! ## Exit manager (src/orb/strategy/exit.py) -/

/-- ExitSignal (exit.py). -/
structure ExitSignal where
  reason : ExitReason
  exit_premium : ℚ
deriving DecidableEq, Repr

/-- The 5-tuple returned by `ExitManager.check_exit` (exit.py):
`(ExitSignal | None, regime, premium_sl, highest_gain, last_ladder_idx)`. -/
structure ExitResult where
  signal : Option ExitSignal
  regime : Regime
  premium_sl : Option ℚ
  highest_gain : ℚ
  last_ladder_idx : ℤ
deriving DecidableEq, Repr

/-- ExitManager (exit.py): holds the configured trailing ladder. -/
structure ExitManager where
  ladder : List TrailingStep
deriving DecidableEq, Repr

/-- ExitManager._check_underlying_sl (exit.py):
CALL SL when the candle low reaches L1, PUT SL when the high reaches H1. -/
def ExitManager.check_underlying_sl (_m : ExitManager) (candle : Candle) (side : Side)
    (h1 l1 : ℚ) : Bool :=
  match side with
  | Side.CALL => decide (candle.low ≤ l1)
  | Side.PUT => decide (h1 ≤ candle.high)

/-- The `for i, step in enumerate(self._ladder)` loop body of
`ExitManager._check_ladder_transition` (exit.py): `i` is the index of the head
of the remaining list, the accumulator is `(regime, new_sl, new_idx)`.
Steps with `i <= last_idx` are skipped; a triggered step advances `new_idx`
(and, unless it is the `-1` full-exit step, raises `new_sl`); the first
untriggered step breaks the loop. -/
def checkLadderLoop (premium_gain entry_premium : ℚ) (last_idx : ℤ) :
    List TrailingStep → ℕ → Regime × Option ℚ × ℤ → Regime × Option ℚ × ℤ
  | [], _, acc => acc
  | step :: rest, i, (regime, new_sl, new_idx) =>
    if (i : ℤ) ≤ last_idx then
      checkLadderLoop premium_gain entry_premium last_idx rest (i + 1) (regime, new_sl, new_idx)
    else if step.trigger ≤ premium_gain then
      if step.trail_to = -1 then
        checkLadderLoop premium_gain entry_premium last_idx rest (i + 1)
          (Regime.B, new_sl, (i : ℤ))
      else
        checkLadderLoop premium_gain entry_premium last_idx rest (i + 1)
          (Regime.B, some (entry_premium + step.trail_to), (i : ℤ))
    else
      (regime, new_sl, new_idx)

/-- ExitManager._check_ladder_transition (exit.py). Returns
`(regime, new_sl_premium, new_last_idx)`. -/
def ExitManager.check_ladder_transition (m : ExitManager) (premium_gain entry_premium : ℚ)
    (current_sl : Option ℚ) (last_idx : ℤ) : Regime × Option ℚ × ℤ :=
  let regime := if last_idx < 0 then Regime.A else Regime.B
  checkLadderLoop premium_gain entry_premium last_idx m.ladder 0 (regime, current_sl, last_idx)

/-- The `if current_regime == "B":` block of `ExitManager.check_exit`
(exit.py lines 96-128), reached either with an inherited Regime B or straight
after the A→B transition in the same call: re-scan the ladder, fire
`PREMIUM_TARGET` if the last-triggered step is the `-1` sentinel, else fire
`PREMIUM_TRAIL_SL` when the premium is at or below the trailing SL. -/
def ExitManager.regimeB_block (m : ExitManager) (option_premium premium_gain entry_premium : ℚ)
    (premium_sl : Option ℚ) (highest_gain : ℚ) (last_ladder_idx : ℤ) : ExitResult :=
  match m.check_ladder_transition premium_gain entry_premium premium_sl last_ladder_idx with
  | (_, new_sl, new_idx) =>
    let premium_sl := match new_sl with
      | some s => some s
      | none => premium_sl
    let last_ladder_idx := if last_ladder_idx < new_idx then new_idx else last_ladder_idx
    let full_exit : Bool :=
      if 0 ≤ last_ladder_idx ∧ last_ladder_idx < (m.ladder.length : ℤ) then
        match m.ladder.get? last_ladder_idx.toNat with
        | some step => decide (step.trail_to = -1)
        | none => false
      else false
    if full_exit then
      ⟨some ⟨ExitReason.PREMIUM_TARGET, option_premium⟩, Regime.B, premium_sl,
        highest_gain, last_ladder_idx⟩
    else
      match premium_sl with
      | some sl =>
        if option_premium ≤ sl then
          ⟨some ⟨ExitReason.PREMIUM_TRAIL_SL, option_premium⟩, Regime.B, premium_sl,
            highest_gain, last_ladder_idx⟩
        else ⟨none, Regime.B, premium_sl, highest_gain, last_ladder_idx⟩
      | none => ⟨none, Regime.B, premium_sl, highest_gain, last_ladder_idx⟩

/-- ExitManager.check_exit (exit.py): dual-regime exit decision. Regime A
checks the underlying stop first, then a possible A→B ladder transition; the
Regime B block (also reached in the same call after a transition, the two
regime tests are sequential `if`s in the source) handles ladder progression,
the full-exit sentinel, and the premium trailing SL. -/
def ExitManager.check_exit (m : ExitManager) (underlying_candle : Candle)
    (option_premium : ℚ) (side : Side) (h1 l1 : ℚ) (entry_premium : ℚ)
    (current_regime : Regime) (premium_sl : Option ℚ) (highest_gain : ℚ)
    (last_ladder_idx : ℤ) : ExitResult :=
  let premium_gain := option_premium - entry_premium
  let highest_gain := if highest_gain < premium_gain then premium_gain else highest_gain
  if current_regime = Regime.A then
    if m.check_underlying_sl underlying_candle side h1 l1 then
      ⟨some ⟨ExitReason.CANDLE_SL, option_premium⟩, Regime.A, premium_sl,
        highest_gain, last_ladder_idx⟩
    else
      match m.check_ladder_transition premium_gain entry_premium premium_sl last_ladder_idx with
      | (new_regime, new_sl, new_idx) =>
        if new_regime = Regime.B then
          m.regimeB_block option_premium premium_gain entry_premium new_sl highest_gain new_idx
        else
          ⟨none, Regime.A, premium_sl, highest_gain, last_ladder_idx⟩
  else
    m.regimeB_block option_premium premium_gain entry_premium premium_sl highest_gain
      last_ladder_idx

/-- ExitManager.check_force_exit (exit.py). -/
def ExitManager.check_force_exit (_m : ExitManager) (option_premium : ℚ) : ExitSignal :=
  ⟨ExitReason.FORCE_EXIT, option_premium⟩

/-! ## RSI indicator (src/orb/indicators/rsi.py) -/

/-- RSI state (rsi.py). The source keeps `_avg_gain` and `_avg_loss` as two
fields that are always `None` or set together (asserted in `_compute_rsi`);
they are merged into one optional pair `avgs` here. `__init__` raises
`ValueError` for `period < 1`; theorems carry `1 ≤ period` instead. -/
structure RSI where
  period : ℕ
  alpha : ℚ
  prev_close : Option ℚ
  avgs : Option (ℚ × ℚ)
  count : ℕ
  gain_buf : List ℚ
  loss_buf : List ℚ
deriving DecidableEq, Repr

/-- RSI.__init__ / RSI.reset (rsi.py): `alpha = 1.0 / period`. -/
def RSI.init (period : ℕ) : RSI :=
  ⟨period, 1 / (period : ℚ), none, none, 0, [], []⟩

/-- RSI._compute_rsi (rsi.py): `100` when `avg_loss == 0`, else
`100 - 100 / (1 + avg_gain / avg_loss)`. -/
def RSI.compute_rsi (avg_gain avg_loss : ℚ) : ℚ :=
  if avg_loss = 0 then 100
  else 100 - 100 / (1 + avg_gain / avg_loss)

/-- RSI.value (rsi.py): last computed value without mutating state. -/
def RSI.value (r : RSI) : Option ℚ :=
  match r.avgs with
  | none => none
  | some (ag, al) => some (RSI.compute_rsi ag al)

/-- RSI.update (rsi.py): seed `prev_close` from the first close; buffer the
first `period` gain/loss pairs and seed the averages with their simple mean;
afterwards Wilder-smooth with `alpha = 1/period`. Returns the new value
(`None` until `period + 1` closes have been seen) and the updated state. -/
def RSI.update (r : RSI) (close : ℚ) : Option ℚ × RSI :=
  let r := { r with count := r.count + 1 }
  match r.prev_close with
  | none => (none, { r with prev_close := some close })
  | some prev =>
    let change := close - prev
    let gain := max change 0
    let loss := max (-change) 0
    let r := { r with prev_close := some close }
    match r.avgs with
    | none =>
      let gain_buf := r.gain_buf ++ [gain]
      let loss_buf := r.loss_buf ++ [loss]
      if gain_buf.length < r.period then
        (none, { r with gain_buf := gain_buf, loss_buf := loss_buf })
      else
        let avg_gain := gain_buf.sum / (r.period : ℚ)
        let avg_loss := loss_buf.sum / (r.period : ℚ)
        (some (RSI.compute_rsi avg_gain avg_loss),
          { r with avgs := some (avg_gain, avg_loss), gain_buf := [], loss_buf := [] })
    | some (ag, al) =>
      let avg_gain := ag * (1 - r.alpha) + gain * r.alpha
      let avg_loss := al * (1 - r.alpha) + loss * r.alpha
      (some (RSI.compute_rsi avg_gain avg_loss), { r with avgs := some (avg_gain, avg_loss) })

/-- Feed a list of closes through `RSI.update`, collecting the outputs. -/
def RSI.run (r : RSI) : List ℚ → List (Option ℚ)
  | [] => []
  | c :: cs => (RSI.update r c).1 :: RSI.run (RSI.update r c).2 cs

/-- State-shape invariant of an `RSI` with period `P` after `n` closes: the
baseline close is set once one close arrived; through the seed phase
(`n ≤ P`) the averages are unset and the buffers hold `n - 1` samples;
afterwards the averages are set. -/
def rsiShape (P n : ℕ) (r : RSI) : Prop :=
  r.period = P
  ∧ (n = 0 → r.prev_close = none)
  ∧ (0 < n → ∃ c, r.prev_close = some c)
  ∧ (n ≤ P → r.avgs = none ∧ r.gain_buf.length = n - 1)
  ∧ (P < n → ∃ a, r.avgs = some a)

/-- Invariant of an `RSI` fed a non-decreasing price stream: every buffered
loss is zero and, once seeded, the smoothed average loss is zero. -/
def rsiInc (r : RSI) : Prop :=
  (∀ x ∈ r.loss_buf, x = 0) ∧ (∀ a ∈ r.avgs, a.2 = 0)

/-- Invariant of an `RSI` fed a strictly decreasing price stream: every
buffered gain is zero, every buffered loss is positive, and, once seeded, the
smoothed average gain is zero while the average loss is positive. -/
def rsiDec (r : RSI) : Prop :=
  1 ≤ r.period ∧ r.alpha = 1 / (r.period : ℚ)
  ∧ (∀ x ∈ r.gain_buf, x = 0) ∧ (∀ x ∈ r.loss_buf, 0 < x)
  ∧ (∀ a ∈ r.avgs, a.1 = 0 ∧ 0 < a.2)

/-! ## SuperTrend indicator (src/orb/indicators/supertrend.py) -/

/-- The `{"value": ..., "direction": ...}` dict returned by SuperTrend. -/
structure STResult where
  value : ℚ
  direction : ℤ
deriving DecidableEq, Repr

/-- SuperTrend state (supertrend.py). -/
structure SuperTrend where
  period : ℕ
  multiplier : ℚ
  alpha : ℚ
  prev_close : Option ℚ
  atr : Option ℚ
  count : ℕ
  tr_buf : List ℚ
  final_upper : Option ℚ
  final_lower : Option ℚ
  direction : Option ℤ
deriving DecidableEq, Repr

/-- SuperTrend.__init__ / reset (supertrend.py). -/
def SuperTrend.init (period : ℕ) (multiplier : ℚ) : SuperTrend :=
  ⟨period, multiplier, 1 / (period : ℚ), none, none, 0, [], none, none, none⟩

/-- SuperTrend.value (supertrend.py): last computed result without mutation. -/
def SuperTrend.value (s : SuperTrend) : Option STResult :=
  match s.direction, s.final_lower, s.final_upper with
  | some d, some fl, some fu => some ⟨if d = 1 then fl else fu, d⟩
  | _, _, _ => none

/-- SuperTrend.update (supertrend.py): true range → (seeded, then
Wilder-smoothed) ATR → basic/final band tightening → direction flips when the
close crosses the opposite band. -/
def SuperTrend.update (s : SuperTrend) (high low close : ℚ) : Option STResult × SuperTrend :=
  let s := { s with count := s.count + 1 }
  match s.prev_close with
  | none => (none, { s with prev_close := some close })
  | some prev_close =>
    let tr := max (high - low) (max |high - prev_close| |low - prev_close|)
    let seeded : Option (ℚ × SuperTrend) :=
      match s.atr with
      | none =>
        let tr_buf := s.tr_buf ++ [tr]
        if tr_buf.length < s.period then none
        else
          let atr := tr_buf.sum / (s.period : ℚ)
          some (atr, { s with atr := some atr, tr_buf := [] })
      | some atr0 =>
        let atr := atr0 * (1 - s.alpha) + tr * s.alpha
        some (atr, { s with atr := some atr })
    match seeded with
    | none => (none, { s with tr_buf := s.tr_buf ++ [tr], prev_close := some close })
    | some (atr, s) =>
      let hl2 := (high + low) / 2
      let basic_upper := hl2 + s.multiplier * atr
      let basic_lower := hl2 - s.multiplier * atr
      let final_upper :=
        match s.final_upper with
        | some fu => if prev_close ≤ fu then min basic_upper fu else basic_upper
        | none => basic_upper
      let final_lower :=
        match s.final_lower with
        | some fl => if fl ≤ prev_close then max basic_lower fl else basic_lower
        | none => basic_lower
      let direction : ℤ :=
        match s.direction with
        | none => if final_upper < close then 1 else -1
        | some prev_dir =>
          if prev_dir = 1 then (if close < final_lower then -1 else 1)
          else (if final_upper < close then 1 else -1)
      let value := if direction = 1 then final_lower else final_upper
      (some ⟨value, direction⟩,
        { s with final_upper := some final_upper, final_lower := some final_lower,
                 direction := some direction, prev_close := some close })

/-! ## Opening-range detector (src/orb/strategy/opening_range.py) -/

/-- OpeningRangeDetector state (opening_range.py). -/
structure OpeningRangeDetector where
  num_candles : ℕ
  candles : List Candle
  h3 : Option ℚ
  l3 : Option ℚ
deriving DecidableEq, Repr

/-- OpeningRangeDetector.__init__ (opening_range.py). -/
def OpeningRangeDetector.init (num_candles : ℕ) : OpeningRangeDetector :=
  ⟨num_candles, [], none, none⟩

/-- OpeningRangeDetector.is_complete (opening_range.py). -/
def OpeningRangeDetector.is_complete (d : OpeningRangeDetector) : Bool :=
  decide (d.num_candles ≤ d.candles.length)

/-- OpeningRangeDetector.update (opening_range.py): consume the first
`num_candles` candles; on the last one compute `H3 = max high`,
`L3 = min low`. Returns `True` once complete. -/
def OpeningRangeDetector.update (d : OpeningRangeDetector) (candle : Candle) :
    Bool × OpeningRangeDetector :=
  if d.is_complete then (true, d)
  else
    let candles := d.candles ++ [candle]
    if candles.length = d.num_candles then
      (true, { d with candles := candles,
                      h3 := some ((candles.map Candle.high).foldr max candle.high),
                      l3 := some ((candles.map Candle.low).foldr min candle.low) })
    else (false, { d with candles := candles })

/-! ## Breakout detector (src/orb/strategy/breakout.py) -/

/-- BreakoutDetector state (breakout.py). -/
structure BreakoutDetector where
  h3 : ℚ
  l3 : ℚ
  prev_candle : Option Candle
  breakout : Option BreakoutInfo
  candle_idx : ℕ
deriving DecidableEq, Repr

/-- BreakoutDetector.__init__ (breakout.py). -/
def BreakoutDetector.init (h3 l3 : ℚ) : BreakoutDetector :=
  ⟨h3, l3, none, none, 0⟩

/-- BreakoutDetector.is_confirmed (breakout.py). -/
def BreakoutDetector.is_confirmed (d : BreakoutDetector) : Bool :=
  d.breakout.isSome

/-- BreakoutDetector.update (breakout.py): a no-op once confirmed; a close
above H3 confirms CALL (`H1 =` candle high, `L1 =` previous candle's low or
L3); otherwise a close below L3 confirms PUT symmetrically; otherwise the
candle becomes `prev_candle`. -/
def BreakoutDetector.update (d : BreakoutDetector) (candle : Candle) :
    Option BreakoutInfo × BreakoutDetector :=
  match d.breakout with
  | some _ => (none, d)
  | none =>
    let idx := d.candle_idx + 1
    let d := { d with candle_idx := idx }
    if d.h3 < candle.close then
      let pre_candle_low := match d.prev_candle with
        | some p => p.low
        | none => d.l3
      let info : BreakoutInfo :=
        ⟨Side.CALL, idx, d.h3, d.l3, candle.high, pre_candle_low, candle.timestamp⟩
      (some info, { d with breakout := some info })
    else if candle.close < d.l3 then
      let pre_candle_high := match d.prev_candle with
        | some p => p.high
        | none => d.h3
      let info : BreakoutInfo :=
        ⟨Side.PUT, idx, d.h3, d.l3, pre_candle_high, candle.low, candle.timestamp⟩
      (some info, { d with breakout := some info })
    else (none, { d with prev_candle := some candle })

/-! ## Entry signal evaluator (src/orb/strategy/entry.py) -/

/-- EntrySignal configuration (entry.py `__init__`). The Python object also
holds references to the session's RSI and SuperTrend instances and reads
their `.value` at call time; here those current values are passed to
`check_entry` explicitly. -/
structure EntrySignal where
  rsi_min : ℚ
  rsi_max : ℚ
  no_entry_after : ℕ
  max_re_entries : ℕ
deriving DecidableEq, Repr

/-- EntrySignal.check_entry (entry.py): gates in source order — time cutoff,
re-entry count (`entries_this_side >= max_re_entries` blocks), warmed-up
indicators, RSI band, SuperTrend direction aligned with the breakout side,
and the H1/L1 price-crossing trigger. -/
def EntrySignal.check_entry (e : EntrySignal) (rsi_val : Option ℚ)
    (st_result : Option STResult) (candle : Candle) (breakout : BreakoutInfo)
    (entries_this_side : ℕ) (current_time : ℕ) : Option Side :=
  if e.no_entry_after < current_time then none
  else if e.max_re_entries ≤ entries_this_side then none
  else
    match rsi_val, st_result with
    | some rsi_val, some st =>
      if ¬ (e.rsi_min ≤ rsi_val ∧ rsi_val ≤ e.rsi_max) then none
      else
        match breakout.side with
        | Side.CALL =>
          if st.direction ≠ 1 then none
          else if breakout.h1 ≤ candle.high then some Side.CALL
          else none
        | Side.PUT =>
          if st.direction ≠ -1 then none
          else if candle.low ≤ breakout.l1 then some Side.PUT
          else none
    | _, _ => none

/-- The first-hit scan of `EntrySignal.check_sl_before_entry` (entry.py): walk
the synthetic ticks; `true` if the SL level is hit strictly before the entry
level. -/
def slBeforeEntryScan (entry_hit sl_hit : ℚ → Bool) : List ℚ → Bool
  | [] => false
  | tick :: rest =>
    if sl_hit tick then true
    else if entry_hit tick then false
    else slBeforeEntryScan entry_hit sl_hit rest

/-- EntrySignal.check_sl_before_entry (entry.py): conservative same-candle
ordering veto via the candle's synthetic ticks. -/
def EntrySignal.check_sl_before_entry (_e : EntrySignal) (candle : Candle)
    (breakout : BreakoutInfo) : Bool :=
  let ticks := candle.synthetic_ticks
  match breakout.side with
  | Side.CALL =>
    slBeforeEntryScan (fun t => decide (breakout.h1 ≤ t)) (fun t => decide (t ≤ breakout.l1))
      ticks
  | Side.PUT =>
    slBeforeEntryScan (fun t => decide (t ≤ breakout.l1)) (fun t => decide (breakout.h1 ≤ t))
      ticks

/-! ## Position state machine (src/orb/strategy/position.py) -/

/-- PositionManager state (position.py). -/
structure PositionManager where
  lot_size : ℕ
  lots : ℕ
  position : Position
  trade_counter : ℕ
deriving DecidableEq, Repr

/-- PositionManager.__init__ (position.py). -/
def PositionManager.init (lot_size lots : ℕ) : PositionManager :=
  ⟨lot_size, lots, {}, 0⟩

/-- PositionManager.is_active (position.py). -/
def PositionManager.is_active (pm : PositionManager) : Bool :=
  pm.position.is_active

/-- PositionManager.is_idle (position.py). -/
def PositionManager.is_idle (pm : PositionManager) : Bool :=
  decide (pm.position.state = PositionState.IDLE)

/-- PositionManager.on_breakout (position.py): IDLE → WAITING_ENTRY only from
IDLE, otherwise a defensive no-op. -/
def PositionManager.on_breakout (pm : PositionManager) (breakout : BreakoutInfo) :
    PositionManager :=
  if pm.position.state ≠ PositionState.IDLE then pm
  else
    { pm with position := { pm.position with
        state := PositionState.WAITING_ENTRY,
        breakout := some breakout,
        side := some breakout.side } }

/-- PositionManager.on_entry (position.py): transition to ACTIVE_REGIME_A,
record the entry, reset the trailing fields, and increment the side's daily
entry counter. -/
def PositionManager.on_entry (pm : PositionManager) (side : Side) (entry_premium : ℚ)
    (entry_time : ℕ) (underlying_price : ℚ) (strike : ℚ) (option_type option_symbol : String) :
    PositionManager :=
  let p := { pm.position with
    state := PositionState.ACTIVE_REGIME_A,
    side := some side,
    entry_premium := entry_premium,
    current_premium := entry_premium,
    entry_time := some entry_time,
    underlying_at_entry := underlying_price,
    strike := strike,
    option_type := option_type,
    option_symbol := option_symbol,
    lots := pm.lots,
    premium_sl := none,
    highest_premium_gain := 0,
    last_triggered_ladder_idx := -1 }
  let p := match side with
    | Side.CALL => { p with call_entries_today := p.call_entries_today + 1 }
    | Side.PUT => { p with put_entries_today := p.put_entries_today + 1 }
  { pm with position := p }

/-- PositionManager.on_regime_change (position.py). -/
def PositionManager.on_regime_change (pm : PositionManager) (regime : Regime) :
    PositionManager :=
  match regime with
  | Regime.B => { pm with position := { pm.position with state := PositionState.ACTIVE_REGIME_B } }
  | Regime.A => { pm with position := { pm.position with state := PositionState.ACTIVE_REGIME_A } }

/-- PositionManager.on_exit (position.py): emit the TradeRecord
(`gross_pnl = (exit_premium - entry_premium) * lot_size * lots`, re-entry
number = side counter - 1) and reset the position to IDLE while preserving
breakout, side, and the per-side entry counters. -/
def PositionManager.on_exit (pm : PositionManager) (exit_premium : ℚ) (exit_time : ℕ)
    (underlying_price : ℚ) (exit_reason : ExitReason) : TradeRecord × PositionManager :=
  let trade_counter := pm.trade_counter + 1
  let pos := pm.position
  let breakout := pos.breakout
  let gross_pnl := (exit_premium - pos.entry_premium) * (pm.lot_size : ℚ) * (pm.lots : ℚ)
  let regime := if pos.state = PositionState.ACTIVE_REGIME_B then Regime.B else Regime.A
  let re_entry : ℤ := match pos.side with
    | some Side.CALL => (pos.call_entries_today : ℤ) - 1
    | _ => (pos.put_entries_today : ℤ) - 1
  let record : TradeRecord :=
    { trade_id := trade_counter
      side := pos.side.getD Side.CALL
      entry_time := pos.entry_time.getD exit_time
      exit_time := exit_time
      underlying_entry := pos.underlying_at_entry
      underlying_exit := underlying_price
      h3 := (breakout.map BreakoutInfo.h3).getD 0
      l3 := (breakout.map BreakoutInfo.l3).getD 0
      h1 := (breakout.map BreakoutInfo.h1).getD 0
      l1 := (breakout.map BreakoutInfo.l1).getD 0
      strike := pos.strike
      option_type := pos.option_type
      option_symbol := pos.option_symbol
      entry_premium := pos.entry_premium
      exit_premium := exit_premium
      lots := pm.lots
      lot_size := pm.lot_size
      gross_pnl := gross_pnl
      charges := 0
      net_pnl := gross_pnl
      exit_reason := exit_reason
      re_entry_number := re_entry
      regime_at_exit := regime }
  let p := { pos with
    state := PositionState.IDLE,
    entry_premium := 0,
    current_premium := 0,
    entry_time := none,
    premium_sl := none,
    highest_premium_gain := 0,
    last_triggered_ladder_idx := -1 }
  (record, { pm with position := p, trade_counter := trade_counter })

/-- PositionManager.entries_for_side (position.py). -/
def PositionManager.entries_for_side (pm : PositionManager) (side : Side) : ℕ :=
  match side with
  | Side.CALL => pm.position.call_entries_today
  | Side.PUT => pm.position.put_entries_today

/-! ## Configuration (src/orb/config.py), fields the core consumes -/

/-- MarketConfig (config.py), contract-sizing fields. -/
structure MarketConfig where
  lot_size : ℕ := 25
  strike_step : ℕ := 50
  itm_offset : ℕ := 200
deriving DecidableEq, Repr

/-- SessionConfig (config.py), times in minutes. -/
structure SessionConfig where
  orb_candles : ℕ := 3
  no_new_entry_after : ℕ := 11 * 60 + 30
  force_exit_time : ℕ := 15 * 60 + 15
deriving DecidableEq, Repr

/-- StrategyConfig (config.py), fields the core consumes. -/
structure StrategyConfig where
  max_re_entries_per_side : ℕ := 4
  rsi_period : ℕ := 14
  rsi_entry_min : ℚ := 40
  rsi_entry_max : ℚ := 65
  supertrend_period : ℕ := 10
  supertrend_multiplier : ℚ := 3
  trailing_ladder : List TrailingStep := []
deriving DecidableEq, Repr

/-- BacktestConfig (config.py). -/
structure BacktestConfig where
  slippage_points : ℚ := 2
  brokerage_per_order : ℚ := 20
  stt_rate : ℚ := 625 / 1000000
  gst_rate : ℚ := 18 / 100
  sebi_charges : ℚ := 1 / 1000000
  stamp_duty : ℚ := 3 / 100000
  exchange_txn_charge : ℚ := 53 / 100000
deriving DecidableEq, Repr

/-- AppConfig (config.py), the sub-configs the core consumes. -/
structure AppConfig where
  market : MarketConfig := {}
  session : SessionConfig := {}
  strategy : StrategyConfig := {}
  backtest : BacktestConfig := {}
deriving DecidableEq, Repr

/-! ## Trading-session orchestrator (src/orb/strategy/session.py) -/

/-- TradingSession state (session.py). `_available_option_symbols` is the
two-key dict `"CE"/"PE" → symbol`; `_execute_entry` later parses the strike
back out of the symbol string (`"NIFTY25850PE"` → `25850`), so the strike the
symbol encodes is stored alongside it at registration time here, avoiding
string parsing. `_entry` is `None` until the opening range completes. -/
structure TradingSession where
  config : AppConfig
  trades : List TradeRecord
  orb : OpeningRangeDetector
  breakout : Option BreakoutDetector
  entry : Option EntrySignal
  exit : ExitManager
  position : PositionManager
  rsi : RSI
  supertrend : SuperTrend
  candle_count : ℕ
  last_candle : Option Candle
  day_done : Bool
  ce_symbol : Option (ℤ × String)
  pe_symbol : Option (ℤ × String)
deriving DecidableEq, Repr

/-- TradingSession.__init__ (session.py). -/
def TradingSession.init (config : AppConfig) : TradingSession :=
  { config := config
    trades := []
    orb := OpeningRangeDetector.init config.session.orb_candles
    breakout := none
    entry := none
    exit := ⟨config.strategy.trailing_ladder⟩
    position := PositionManager.init config.market.lot_size 1
    rsi := RSI.init config.strategy.rsi_period
    supertrend := SuperTrend.init config.strategy.supertrend_period
      config.strategy.supertrend_multiplier
    candle_count := 0
    last_candle := none
    day_done := false
    ce_symbol := none
    pe_symbol := none }

/-- TradingSession.is_done (session.py). -/
def TradingSession.is_done (s : TradingSession) : Bool :=
  s.day_done

/-- TradingSession.warm_up (session.py): replay prior-day candles through RSI
and SuperTrend only. -/
def TradingSession.warm_up (s : TradingSession) (candles : List Candle) : TradingSession :=
  candles.foldl
    (fun s c =>
      { s with rsi := (s.rsi.update c.close).2,
               supertrend := (s.supertrend.update c.high c.low c.close).2 })
    s

/-- TradingSession._execute_entry (session.py): resolve strike and symbol —
from the registered symbol when available, else rounded from spot
(`round(spot / strike_step) * strike_step` minus/plus `itm_offset`; Python's
banker's rounding and Mathlib's `round` differ only at exact halves, which no
theorem relies on) — then `PositionManager.on_entry`. -/
def TradingSession.execute_entry (s : TradingSession) (candle : Candle)
    (option_premium : ℚ) (side : Side) : TradingSession :=
  let option_type := if side = Side.CALL then "CE" else "PE"
  let resolved : ℚ × String :=
    match (if side = Side.CALL then s.ce_symbol else s.pe_symbol) with
    | some (k, sym) => ((k : ℚ), sym)
    | none =>
      let spot := candle.close
      let strike_step := s.config.market.strike_step
      let itm_offset := s.config.market.itm_offset
      let rounded_spot : ℤ := round (spot / (strike_step : ℚ)) * (strike_step : ℤ)
      let strike : ℤ :=
        if side = Side.CALL then rounded_spot - (itm_offset : ℤ)
        else rounded_spot + (itm_offset : ℤ)
      ((strike : ℚ), "NIFTY" ++ toString strike ++ option_type)
  { s with position := (s.position.on_entry side option_premium candle.timestamp candle.close
      resolved.1 option_type resolved.2) }

/-- TradingSession._check_exit (session.py): run `ExitManager.check_exit` on
the in-flight position, persist the returned regime / premium_sl /
highest_gain / ladder index back onto it, and close the trade when a signal
fires. The position's `side` can only be unset in states the orchestrator
never reaches here; Python's `side == Side.CALL` comparison then takes the
PUT branch, hence `getD Side.PUT`. Likewise `breakout` is always set for an
active position; Python would raise on the `none` branch, modelled as a
defensive no-op. -/
def TradingSession.check_exit (s : TradingSession) (candle : Candle) (option_premium : ℚ) :
    Option TradeRecord × TradingSession :=
  let pos := s.position.position
  match pos.breakout with
  | none => (none, s)
  | some breakout =>
    let current_regime :=
      if pos.state = PositionState.ACTIVE_REGIME_B then Regime.B else Regime.A
    let r := s.exit.check_exit candle option_premium (pos.side.getD Side.PUT)
      breakout.h1 breakout.l1 pos.entry_premium current_regime pos.premium_sl
      pos.highest_premium_gain pos.last_triggered_ladder_idx
    let position := { s.position with position := { s.position.position with
        premium_sl := r.premium_sl,
        highest_premium_gain := r.highest_gain,
        last_triggered_ladder_idx := r.last_ladder_idx } }
    let position := if r.regime ≠ current_regime then position.on_regime_change r.regime
      else position
    let s := { s with position := position }
    match r.signal with
    | some sig =>
      match s.position.on_exit sig.exit_premium candle.timestamp candle.close sig.reason with
      | (trade, pm) => (some trade, { s with position := pm, trades := s.trades ++ [trade] })
    | none => (none, s)

/-- TradingSession._handle_force_exit (session.py): close any open position
with FORCE_EXIT at the supplied premium (`0.0` when the premium is absent). -/
def TradingSession.handle_force_exit (s : TradingSession) (candle : Candle)
    (option_premium : Option ℚ) : Option TradeRecord × TradingSession :=
  if ¬ s.position.is_active then (none, s)
  else
    let premium := option_premium.getD 0
    let exit_signal := s.exit.check_force_exit premium
    match s.position.on_exit exit_signal.exit_premium candle.timestamp candle.close
        ExitReason.FORCE_EXIT with
    | (trade, pm) => (some trade, { s with position := pm, trades := s.trades ++ [trade] })

/-- TradingSession.process_candle (session.py): indicators update first; the
ORB phase consumes candles until complete (constructing the breakout detector
and entry evaluator on completion); then the force-exit cutoff, breakout
detection, the exit check for an active position, and the entry check. -/
def TradingSession.process_candle (s : TradingSession) (underlying_candle : Candle)
    (option_premium : Option ℚ) : Option TradeRecord × TradingSession :=
  if s.day_done then (none, s)
  else
    let s := { s with candle_count := s.candle_count + 1 }
    let candle := underlying_candle
    let candle_time := candle.timestamp
    let s := { s with rsi := (s.rsi.update candle.close).2,
                      supertrend := (s.supertrend.update candle.high candle.low candle.close).2 }
    if ¬ s.orb.is_complete then
      match s.orb.update candle with
      | (completed, orb) =>
        let s := { s with orb := orb }
        let s :=
          if completed then
            match orb.h3, orb.l3 with
            | some h3, some l3 =>
              { s with breakout := some (BreakoutDetector.init h3 l3),
                       entry := some ⟨s.config.strategy.rsi_entry_min,
                                      s.config.strategy.rsi_entry_max,
                                      s.config.session.no_new_entry_after,
                                      s.config.strategy.max_re_entries_per_side⟩ }
            | _, _ => s
          else s
        (none, { s with last_candle := some candle })
    else if s.config.session.force_exit_time ≤ candle_time then
      match s.handle_force_exit candle option_premium with
      | (trade, s) => (trade, { s with day_done := true })
    else
      let s :=
        match s.breakout with
        | some bd =>
          if ¬ bd.is_confirmed then
            match bd.update candle with
            | (some info, bd) =>
              { s with breakout := some bd, position := s.position.on_breakout info }
            | (none, bd) => { s with breakout := some bd }
          else s
        | none => s
      let exit_step : Option TradeRecord × TradingSession :=
        match option_premium with
        | some p => if s.position.is_active then s.check_exit candle p else (none, s)
        | none => (none, s)
      match exit_step with
      | (some trade, s) => (some trade, { s with last_candle := some candle })
      | (none, s) =>
        let s :=
          match option_premium, s.breakout, s.entry with
          | some p, some bd, some e =>
            if ¬ s.position.is_active ∧ bd.is_confirmed then
              match bd.breakout with
              | some breakout =>
                if ¬ e.check_sl_before_entry candle breakout then
                  let entries := s.position.entries_for_side breakout.side
                  match e.check_entry s.rsi.value s.supertrend.value candle breakout entries
                      candle_time with
                  | some entry_side => s.execute_entry candle p entry_side
                  | none => s
                else s
              | none => s
            else s
          | _, _, _ => s
        (none, { s with last_candle := some candle })

/-! ## Cost/slippage simulator (src/orb/backtest/broker_sim.py) and the
replay engine's per-trade finalization (src/orb/backtest/engine.py) -/

/-- TradeCosts (broker_sim.py). -/
structure TradeCosts where
  brokerage : ℚ
  stt : ℚ
  gst : ℚ
  sebi_charges : ℚ
  stamp_duty : ℚ
  exchange_txn : ℚ
  slippage_cost : ℚ
  total : ℚ
deriving DecidableEq, Repr

/-- BrokerSimulator.apply_slippage (broker_sim.py): buys slip up by
`slippage_points`, sells slip down, floored at `0.05`. -/
def BrokerSimulator.apply_slippage (bc : BacktestConfig) (premium : ℚ) (is_buy : Bool) : ℚ :=
  if is_buy then premium + bc.slippage_points
  else max 0.05 (premium - bc.slippage_points)

/-- BrokerSimulator.calculate_costs (broker_sim.py): brokerage flat × 2, STT
on sell notional, GST on brokerage, SEBI and exchange charges on total
notional, stamp duty on buy notional. -/
def BrokerSimulator.calculate_costs (bc : BacktestConfig) (trade : TradeRecord) : TradeCosts :=
  let qty : ℚ := (trade.lot_size : ℚ) * (trade.lots : ℚ)
  let buy_turnover := trade.entry_premium * qty
  let sell_turnover := trade.exit_premium * qty
  let total_turnover := buy_turnover + sell_turnover
  let brokerage := bc.brokerage_per_order * 2
  let stt := sell_turnover * bc.stt_rate
  let gst := brokerage * bc.gst_rate
  let sebi := total_turnover * bc.sebi_charges
  let stamp := buy_turnover * bc.stamp_duty
  let exchange_txn := total_turnover * bc.exchange_txn_charge
  let slippage_cost := bc.slippage_points * 2 * qty
  let total := brokerage + stt + gst + sebi + stamp + exchange_txn
  ⟨brokerage, stt, gst, sebi, stamp, exchange_txn, slippage_cost, total⟩

/-- BrokerSimulator.apply_costs (broker_sim.py): fill in `charges` and
`net_pnl = gross_pnl - charges`. -/
def BrokerSimulator.apply_costs (bc : BacktestConfig) (trade : TradeRecord) : TradeRecord :=
  let costs := BrokerSimulator.calculate_costs bc trade
  { trade with charges := costs.total, net_pnl := trade.gross_pnl - costs.total }

/-- The closed-trade post-processing block of `BacktestEngine.run_day`
(engine.py lines 119-134): slip the entry premium up and the exit premium
down, recompute `gross_pnl` from the slipped premiums, then apply costs. -/
def BacktestEngine.finalize_trade (bc : BacktestConfig) (trade : TradeRecord) : TradeRecord :=
  let trade := { trade with
    entry_premium := BrokerSimulator.apply_slippage bc trade.entry_premium true }
  let trade := { trade with
    exit_premium := BrokerSimulator.apply_slippage bc trade.exit_premium false }
  let trade := { trade with
    gross_pnl := (trade.exit_premium - trade.entry_premium)
      * (trade.lot_size : ℚ) * (trade.lots : ℚ) }
  BrokerSimulator.apply_costs bc trade

/-! ## Claim C4 -/

/-- Claim C4: in Regime A, `ExitManager.check_exit` returns a `CANDLE_SL` exit
whenever the underlying candle's low reaches `l1` for a CALL position
(symmetrically, high reaches `h1` for a PUT position), regardless of
`option_premium`, `premium_sl`, `highest_gain`, or ladder index, and the
returned regime is still A. -/
theorem check_exit_regimeA_candle_sl (m : ExitManager) (candle : Candle)
    (option_premium : ℚ) (side : Side) (h1 l1 entry_premium : ℚ)
    (premium_sl : Option ℚ) (highest_gain : ℚ) (last_ladder_idx : ℤ)
    (hsl : (side = Side.CALL → candle.low ≤ l1) ∧ (side = Side.PUT → h1 ≤ candle.high)) :
    (m.check_exit candle option_premium side h1 l1 entry_premium Regime.A premium_sl
        highest_gain last_ladder_idx).signal
      = some ⟨ExitReason.CANDLE_SL, option_premium⟩
    ∧ (m.check_exit candle option_premium side h1 l1 entry_premium Regime.A premium_sl
        highest_gain last_ladder_idx).regime = Regime.A := by
  have hb : m.check_underlying_sl candle side h1 l1 = true := by
    cases side with
    | CALL => simpa [ExitManager.check_underlying_sl] using hsl.1 rfl
    | PUT => simpa [ExitManager.check_underlying_sl] using hsl.2 rfl
  simp [ExitManager.check_exit, hb]

/-- Witness for C4 at a concrete input. -/
theorem check_exit_regimeA_candle_sl_witness :
    (ExitManager.check_exit ⟨[⟨30, 0⟩]⟩ ⟨600, 24000, 24050, 23900, 24040, 0⟩ 250 Side.CALL
        24090 23950 260 Regime.A none 0 (-1)).signal
      = some ⟨ExitReason.CANDLE_SL, 250⟩ :=
  (check_exit_regimeA_candle_sl ⟨[⟨30, 0⟩]⟩ ⟨600, 24000, 24050, 23900, 24040, 0⟩ 250 Side.CALL
    24090 23950 260 none 0 (-1) ⟨fun _ => by norm_num, fun h => nomatch h⟩).1

/-! ## Claim C5 -/

/-- Claim C5: `BreakoutDetector.update` on an unconfirmed detector confirms a
CALL breakout on a close above `h3` with `h1 =` the candle's high and `l1 =`
the previously fed candle's low (`l3` when none was fed); symmetrically a
close below `l3` (with `l3 ≤ h3`, so the CALL test fails first) confirms a
PUT breakout; a non-qualifying candle just becomes `prev_candle`; and once
confirmed, every update returns `none` and leaves the whole detector state —
including the stored `BreakoutInfo` — unchanged. -/
theorem breakout_update_spec (d : BreakoutDetector) (c : Candle) :
    (d.breakout = none → d.h3 < c.close →
      (d.update c).1 = some ⟨Side.CALL, d.candle_idx + 1, d.h3, d.l3, c.high,
          (match d.prev_candle with | some p => p.low | none => d.l3), c.timestamp⟩
        ∧ (d.update c).2.breakout = (d.update c).1)
    ∧ (d.breakout = none → d.l3 ≤ d.h3 → c.close < d.l3 →
      (d.update c).1 = some ⟨Side.PUT, d.candle_idx + 1, d.h3, d.l3,
          (match d.prev_candle with | some p => p.high | none => d.h3), c.low, c.timestamp⟩
        ∧ (d.update c).2.breakout = (d.update c).1)
    ∧ (d.breakout = none → ¬ d.h3 < c.close → ¬ c.close < d.l3 →
      (d.update c).1 = none ∧ (d.update c).2.breakout = none
        ∧ (d.update c).2.prev_candle = some c)
    ∧ (∀ b, d.breakout = some b → d.update c = (none, d)) := by
  refine ⟨?_, ?_, ?_, ?_⟩
  · intro hnone hcall
    simp [BreakoutDetector.update, hnone, hcall]
  · intro hnone hle hput
    have hncall : ¬ d.h3 < c.close := by
      intro hcall
      exact absurd (lt_of_lt_of_le hput hle) (lt_asymm hcall)
    simp [BreakoutDetector.update, hnone, hncall, hput]
  · intro hnone hncall hnput
    simp [BreakoutDetector.update, hnone, hncall, hnput]
  · intro b hb
    simp [BreakoutDetector.update, hb]

/-- Witness for C5 at concrete inputs: the very first post-range candle that
closes above `h3 = 24070` confirms CALL with `l1 = l3 = 23980`, and a further
update on the confirmed detector is a no-op. -/
theorem breakout_update_spec_witness :
    ((BreakoutDetector.init 24070 23980).update ⟨558, 24030, 24090, 24025, 24080, 0⟩).1
      = some ⟨Side.CALL, 1, 24070, 23980, 24090, 23980, 558⟩
    ∧ (BreakoutDetector.update
        ⟨24070, 23980, none, some ⟨Side.CALL, 1, 24070, 23980, 24090, 23980, 558⟩, 1⟩
        ⟨559, 24080, 24120, 24075, 24110, 0⟩)
      = (none, ⟨24070, 23980, none, some ⟨Side.CALL, 1, 24070, 23980, 24090, 23980, 558⟩, 1⟩) := by
  have h1 := (breakout_update_spec (BreakoutDetector.init 24070 23980)
    ⟨558, 24030, 24090, 24025, 24080, 0⟩).1 rfl (by norm_num [BreakoutDetector.init])
  have h2 := (breakout_update_spec
    ⟨24070, 23980, none, some ⟨Side.CALL, 1, 24070, 23980, 24090, 23980, 558⟩, 1⟩
    ⟨559, 24080, 24120, 24075, 24110, 0⟩).2.2.2 _ rfl
  exact ⟨h1.1, h2⟩

/-! ## Claim C1 -/

/-- Claim C1, as frozen, is false: it asserts the count guard in
`EntrySignal.check_entry` permits `max_re_entries_per_side + 1` total entries
per side (5 with the default 4) and first blocks the 6th attempt. In the code
`entries_this_side` counts *all* entries already taken on the side (the
counter is incremented by `PositionManager.on_entry` on every entry,
including the first), and `entries_this_side >= max_re_entries` blocks; so
with `max_re_entries = 4` the attempt made after 4 entries — the 5th total
entry — is already blocked, even though every other gate passes (shown by the
same call succeeding with `entries_this_side = 3`). -/
theorem check_entry_blocks_fifth_total_entry :
    EntrySignal.check_entry ⟨40, 65, 690, 4⟩ (some 50) (some ⟨24000, 1⟩)
        ⟨600, 24000, 24100, 23990, 24050, 0⟩ ⟨Side.CALL, 1, 24070, 23980, 24090, 23980, 558⟩
        4 600 = none
    ∧ EntrySignal.check_entry ⟨40, 65, 690, 4⟩ (some 50) (some ⟨24000, 1⟩)
        ⟨600, 24000, 24100, 23990, 24050, 0⟩ ⟨Side.CALL, 1, 24070, 23980, 24090, 23980, 558⟩
        3 600 = some Side.CALL := by
  constructor <;> decide

/-- Claim C1 (amended): `EntrySignal.check_entry` permits exactly
`max_re_entries_per_side` total entries per side per day. The guard blocks via
`entries_this_side >= max_re_entries`, where `entries_this_side` counts
entries already taken (incremented by `PositionManager.on_entry`, including
the first), so configuring 4 permits 4 total entries on a side (1 initial +
3 re-entries) and the guard first blocks the 5th attempt: whenever the count
has reached `max_re_entries` the entry is refused, and below the limit an
entry passing every other gate is granted. -/
theorem check_entry_reentry_gate (e : EntrySignal) (rsi_val : Option ℚ)
    (st_result : Option STResult) (rv : ℚ) (d : STResult) (candle : Candle)
    (breakout : BreakoutInfo) (entries_this_side current_time : ℕ)
    (pm : PositionManager) (entry_premium : ℚ) (entry_time : ℕ)
    (underlying_price strike : ℚ) (option_type option_symbol : String) :
    (e.max_re_entries ≤ entries_this_side →
      e.check_entry rsi_val st_result candle breakout entries_this_side current_time = none)
    ∧ (breakout.side = Side.CALL → entries_this_side < e.max_re_entries →
        current_time ≤ e.no_entry_after → e.rsi_min ≤ rv → rv ≤ e.rsi_max →
        d.direction = 1 → breakout.h1 ≤ candle.high →
        e.check_entry (some rv) (some d) candle breakout entries_this_side current_time
          = some Side.CALL)
    ∧ (breakout.side = Side.PUT → entries_this_side < e.max_re_entries →
        current_time ≤ e.no_entry_after → e.rsi_min ≤ rv → rv ≤ e.rsi_max →
        d.direction = -1 → candle.low ≤ breakout.l1 →
        e.check_entry (some rv) (some d) candle breakout entries_this_side current_time
          = some Side.PUT)
    ∧ ((pm.on_entry Side.CALL entry_premium entry_time underlying_price strike option_type
          option_symbol).position.call_entries_today = pm.position.call_entries_today + 1)
    ∧ ((pm.on_entry Side.PUT entry_premium entry_time underlying_price strike option_type
          option_symbol).position.put_entries_today = pm.position.put_entries_today + 1) := by
  refine ⟨?_, ?_, ?_, ?_, ?_⟩
  · intro hcount
    by_cases ht : e.no_entry_after < current_time <;>
      simp [EntrySignal.check_entry, ht, hcount]
  · intro hside hcount htime hmin hmax hdir hcross
    simp [EntrySignal.check_entry, hside, not_lt.mpr htime, not_le.mpr hcount, hmin, hmax,
      hdir, hcross]
  · intro hside hcount htime hmin hmax hdir hcross
    simp [EntrySignal.check_entry, hside, not_lt.mpr htime, not_le.mpr hcount, hmin, hmax,
      hdir, hcross]
  · simp [PositionManager.on_entry]
  · simp [PositionManager.on_entry]

/-- Witness for amended C1 at concrete inputs: with `max_re_entries = 4`, the
4th entry (3 already taken) passes, the 5th (4 already taken) is blocked, and
`on_entry` increments the CALL counter. -/
theorem check_entry_reentry_gate_witness :
    EntrySignal.check_entry ⟨40, 65, 690, 4⟩ (some 50) (some ⟨24000, 1⟩)
        ⟨600, 24000, 24100, 23990, 24050, 0⟩ ⟨Side.CALL, 1, 24070, 23980, 24090, 23980, 558⟩
        4 601 = none
    ∧ EntrySignal.check_entry ⟨40, 65, 690, 4⟩ (some 50) (some ⟨24000, 1⟩)
        ⟨600, 24000, 24100, 23990, 24050, 0⟩ ⟨Side.CALL, 1, 24070, 23980, 24090, 23980, 558⟩
        3 601 = some Side.CALL
    ∧ ((PositionManager.init 25 1).on_entry Side.CALL 260 601 24050 23850 "CE"
        "NIFTY23850CE").position.call_entries_today
      = (PositionManager.init 25 1).position.call_entries_today + 1 := by
  have h := check_entry_reentry_gate ⟨40, 65, 690, 4⟩ (some 50) (some ⟨24000, 1⟩) 50
    ⟨24000, 1⟩ ⟨600, 24000, 24100, 23990, 24050, 0⟩
    ⟨Side.CALL, 1, 24070, 23980, 24090, 23980, 558⟩ 4 601 (PositionManager.init 25 1)
    260 601 24050 23850 "CE" "NIFTY23850CE"
  have h3 := check_entry_reentry_gate ⟨40, 65, 690, 4⟩ (some 50) (some ⟨24000, 1⟩) 50
    ⟨24000, 1⟩ ⟨600, 24000, 24100, 23990, 24050, 0⟩
    ⟨Side.CALL, 1, 24070, 23980, 24090, 23980, 558⟩ 3 601 (PositionManager.init 25 1)
    260 601 24050 23850 "CE" "NIFTY23850CE"
  exact ⟨h.1 (by norm_num),
    h3.2.1 rfl (by norm_num) (by norm_num) (by norm_num) (by norm_num) rfl (by norm_num),
    h.2.2.2.1⟩

/-! ## Ladder-scan helper lemmas -/

/-- If every index of the remaining ladder segment is at most `last_idx`, the
scan skips everything and returns the accumulator unchanged. -/
theorem checkLadderLoop_skip_all (g ep : ℚ) (last_idx : ℤ) :
    ∀ (l : List TrailingStep) (i : ℕ) (acc : Regime × Option ℚ × ℤ),
      ((i + l.length : ℕ) : ℤ) ≤ last_idx + 1 →
      checkLadderLoop g ep last_idx l i acc = acc := by
  intro l
  induction l with
  | nil => intro i acc _; rfl
  | cons step rest ih =>
    intro i acc h
    obtain ⟨regime, sl, idx⟩ := acc
    simp only [List.length_cons] at h
    have hle : (i : ℤ) ≤ last_idx := by
      push_cast at h
      omega
    have hrec : (((i + 1) + rest.length : ℕ) : ℤ) ≤ last_idx + 1 := by
      push_cast at h ⊢
      omega
    simp only [checkLadderLoop, if_pos hle]
    exact ih (i + 1) _ hrec

/-- If every step of the remaining ladder segment is triggered by `g` and the
scan starts past `last_idx`, it walks the whole segment and ends at the last
index with regime B. -/
theorem checkLadderLoop_all_trigger (g ep : ℚ) (last_idx : ℤ) :
    ∀ (l : List TrailingStep) (i : ℕ) (regime : Regime) (sl : Option ℚ) (idx : ℤ),
      l ≠ [] → (∀ st ∈ l, st.trigger ≤ g) → last_idx < (i : ℤ) →
      ∃ sl2, checkLadderLoop g ep last_idx l i (regime, sl, idx)
        = (Regime.B, sl2, ((i + l.length - 1 : ℕ) : ℤ)) := by
  intro l
  induction l with
  | nil => intro i regime sl idx hne; exact absurd rfl hne
  | cons step rest ih =>
    intro i regime sl idx _ hall hi
    have hnskip : ¬ (i : ℤ) ≤ last_idx := not_le.mpr hi
    have htrig : step.trigger ≤ g := hall step (List.mem_cons_self step rest)
    by_cases hrest : rest = []
    · subst hrest
      by_cases hsent : step.trail_to = -1 <;>
        simp [checkLadderLoop, hnskip, htrig, hsent]
    · have hall' : ∀ st ∈ rest, st.trigger ≤ g := fun st hst =>
        hall st (List.mem_cons_of_mem step hst)
      have hi' : last_idx < ((i + 1 : ℕ) : ℤ) := by
        push_cast
        omega
      have hlen : (i + 1) + rest.length - 1 = i + (step :: rest).length - 1 := by
        simp only [List.length_cons]
        omega
      by_cases hsent : step.trail_to = -1
      · obtain ⟨sl2, h2⟩ := ih (i + 1) Regime.B sl (i : ℤ) hrest hall' hi'
        refine ⟨sl2, ?_⟩
        simp only [checkLadderLoop, if_neg hnskip, if_pos htrig, if_pos hsent]
        rw [h2, hlen]
      · obtain ⟨sl2, h2⟩ := ih (i + 1) Regime.B (some (ep + step.trail_to)) (i : ℤ)
          hrest hall' hi'
        refine ⟨sl2, ?_⟩
        simp only [checkLadderLoop, if_neg hnskip, if_pos htrig, if_neg hsent]
        rw [h2, hlen]

/-- The scan never decreases the accumulated index. -/
theorem checkLadderLoop_idx_ge (g ep : ℚ) (last_idx : ℤ) :
    ∀ (l : List TrailingStep) (i : ℕ) (acc : Regime × Option ℚ × ℤ),
      last_idx ≤ acc.2.2 → last_idx ≤ (checkLadderLoop g ep last_idx l i acc).2.2 := by
  intro l
  induction l with
  | nil => intro i acc h; simpa [checkLadderLoop] using h
  | cons step rest ih =>
    intro i acc h
    obtain ⟨regime, sl, idx⟩ := acc
    by_cases h1 : (i : ℤ) ≤ last_idx
    · simp only [checkLadderLoop, if_pos h1]
      exact ih (i + 1) _ h
    · have hle : last_idx ≤ (i : ℤ) := le_of_lt (not_le.mp h1)
      by_cases h2 : step.trigger ≤ g
      · by_cases h3 : step.trail_to = -1
        · simp only [checkLadderLoop, if_neg h1, if_pos h2, if_pos h3]
          exact ih (i + 1) _ hle
        · simp only [checkLadderLoop, if_neg h1, if_pos h2, if_neg h3]
          exact ih (i + 1) _ hle
      · simpa [checkLadderLoop, h1, h2] using h

/-- `_check_ladder_transition` never decreases the index it is given. -/
theorem check_ladder_transition_idx_ge (m : ExitManager) (g ep : ℚ) (sl : Option ℚ)
    (last_idx : ℤ) : last_idx ≤ (m.check_ladder_transition g ep sl last_idx).2.2 :=
  checkLadderLoop_idx_ge g ep last_idx m.ladder 0 _ le_rfl

/-- The Regime-B block's returned ladder index is the max of the incoming
index and the one produced by the ladder re-scan. -/
theorem regimeB_block_last_idx (m : ExitManager) (option_premium g ep : ℚ)
    (sl : Option ℚ) (hg : ℚ) (last_idx : ℤ) :
    (m.regimeB_block option_premium g ep sl hg last_idx).last_ladder_idx
      = (if last_idx < (m.check_ladder_transition g ep sl last_idx).2.2
          then (m.check_ladder_transition g ep sl last_idx).2.2 else last_idx) := by
  unfold ExitManager.regimeB_block
  generalize m.check_ladder_transition g ep sl last_idx = t
  obtain ⟨r, ns, ni⟩ := t
  dsimp only
  repeat' split
  all_goals rfl

/-- The Regime-B block never decreases the ladder index it is given. -/
theorem regimeB_block_idx_ge (m : ExitManager) (option_premium g ep : ℚ)
    (sl : Option ℚ) (hg : ℚ) (last_idx : ℤ) :
    last_idx ≤ (m.regimeB_block option_premium g ep sl hg last_idx).last_ladder_idx := by
  rw [regimeB_block_last_idx]
  split
  · exact le_of_lt (by assumption)
  · exact le_rfl

/-- If the incoming index is already the ladder's last index and that last
step is the `-1` full-exit sentinel, the Regime-B block fires
`PREMIUM_TARGET` at the supplied premium and keeps that index. -/
theorem regimeB_block_terminal (m : ExitManager) (op g ep : ℚ) (sl : Option ℚ) (hg : ℚ)
    (hne : m.ladder ≠ []) (hterm : (m.ladder.getLast hne).trail_to = -1) :
    (m.regimeB_block op g ep sl hg ((m.ladder.length - 1 : ℕ) : ℤ)).signal
        = some ⟨ExitReason.PREMIUM_TARGET, op⟩
      ∧ (m.regimeB_block op g ep sl hg ((m.ladder.length - 1 : ℕ) : ℤ)).regime = Regime.B
      ∧ (m.regimeB_block op g ep sl hg ((m.ladder.length - 1 : ℕ) : ℤ)).last_ladder_idx
        = ((m.ladder.length - 1 : ℕ) : ℤ) := by
  have hlen : 1 ≤ m.ladder.length := List.length_pos.mpr hne
  set L : ℤ := ((m.ladder.length - 1 : ℕ) : ℤ) with hL
  have hLcast : L = (m.ladder.length : ℤ) - 1 := by
    rw [hL]
    omega
  have htrans : m.check_ladder_transition g ep sl L = (Regime.B, sl, L) := by
    unfold ExitManager.check_ladder_transition
    have hneg : ¬ L < 0 := by omega
    rw [if_neg hneg]
    exact checkLadderLoop_skip_all g ep L m.ladder 0 _ (by push_cast; omega)
  have hget : m.ladder.get? L.toNat = some (m.ladder.getLast hne) := by
    have h1 : L.toNat = m.ladder.length - 1 := by
      rw [hL]
      exact Int.toNat_natCast _
    rw [h1, List.get?_eq_getElem?, ← List.getLast?_eq_getElem?]
    exact List.getLast?_eq_getLast _ hne
  have hcond : 0 ≤ L ∧ L < (m.ladder.length : ℤ) := by omega
  unfold ExitManager.regimeB_block
  rw [htrans]
  dsimp only
  rw [if_neg (lt_irrefl L), if_pos hcond, hget]
  dsimp only
  rw [hterm]
  simp

/-! ## Claim C2 -/

/-- Claim C2, as frozen, is false: it asserts that a single `check_exit` call
in Regime A whose premium gain clears every ladder trigger including the
terminal `-1` step does not return `PREMIUM_TARGET` in that call. With the
default ladder, entry premium 260 and option premium 420 (gain 160 ≥ every
trigger), a single call from Regime A with no step yet triggered returns the
full `PREMIUM_TARGET` exit immediately. -/
theorem check_exit_single_jump_counterexample :
    ExitManager.check_exit ⟨[⟨30, 0⟩, ⟨60, 30⟩, ⟨90, 60⟩, ⟨120, 90⟩, ⟨150, -1⟩]⟩
        ⟨600, 24000, 24050, 23990, 24040, 0⟩ 420 Side.CALL 24090 23900 260 Regime.A none 0 (-1)
      = ⟨some ⟨ExitReason.PREMIUM_TARGET, 420⟩, Regime.B, some 350, 160, 4⟩ := by
  norm_num [ExitManager.check_exit, ExitManager.check_underlying_sl,
    ExitManager.check_ladder_transition, checkLadderLoop, ExitManager.regimeB_block,
    Int.toNat]

/-- Claim C2 (amended): for a position in Regime A with no step yet triggered
(`last_triggered_ladder_idx = -1`), a single `check_exit` call that does not
hit the underlying stop and whose premium gain is at or above every ladder
trigger, the terminal `trail_to = -1` step included, returns the
`PREMIUM_TARGET` full exit in that same call (the A→B transition falls
through into the Regime-B block of the same invocation, which re-reads the
terminal step), with the returned regime B and the returned ladder index the
terminal step's index. -/
theorem check_exit_regimeA_terminal_jump (m : ExitManager) (candle : Candle)
    (option_premium : ℚ) (side : Side) (h1 l1 entry_premium : ℚ)
    (premium_sl : Option ℚ) (highest_gain : ℚ)
    (hne : m.ladder ≠ [])
    (hall : ∀ st ∈ m.ladder, st.trigger ≤ option_premium - entry_premium)
    (hterm : (m.ladder.getLast hne).trail_to = -1)
    (hnosl : m.check_underlying_sl candle side h1 l1 = false) :
    (m.check_exit candle option_premium side h1 l1 entry_premium Regime.A premium_sl
        highest_gain (-1)).signal = some ⟨ExitReason.PREMIUM_TARGET, option_premium⟩
    ∧ (m.check_exit candle option_premium side h1 l1 entry_premium Regime.A premium_sl
        highest_gain (-1)).regime = Regime.B
    ∧ (m.check_exit candle option_premium side h1 l1 entry_premium Regime.A premium_sl
        highest_gain (-1)).last_ladder_idx = ((m.ladder.length - 1 : ℕ) : ℤ) := by
  obtain ⟨sl2, hloop⟩ := checkLadderLoop_all_trigger (option_premium - entry_premium)
    entry_premium (-1) m.ladder 0 Regime.A premium_sl (-1) hne hall (by norm_num)
  have htrans : m.check_ladder_transition (option_premium - entry_premium) entry_premium
      premium_sl (-1) = (Regime.B, sl2, ((m.ladder.length - 1 : ℕ) : ℤ)) := by
    unfold ExitManager.check_ladder_transition
    rw [if_pos (by norm_num : (-1 : ℤ) < 0)]
    simpa using hloop
  unfold ExitManager.check_exit
  dsimp only
  rw [if_pos rfl, hnosl]
  simp only [Bool.false_eq_true, if_false]
  rw [htrans]
  dsimp only
  rw [if_pos rfl]
  exact regimeB_block_terminal m option_premium (option_premium - entry_premium)
    entry_premium sl2 _ hne hterm

/-- Witness for amended C2: with the default ladder, entry 260 and premium
420 from Regime A, the call fires `PREMIUM_TARGET` at once. -/
theorem check_exit_regimeA_terminal_jump_witness :
    (ExitManager.check_exit ⟨[⟨30, 0⟩, ⟨60, 30⟩, ⟨90, 60⟩, ⟨120, 90⟩, ⟨150, -1⟩]⟩
        ⟨600, 24000, 24050, 23990, 24040, 0⟩ 420 Side.CALL 24090 23900 260 Regime.A none 0
        (-1)).signal = some ⟨ExitReason.PREMIUM_TARGET, 420⟩ :=
  (check_exit_regimeA_terminal_jump ⟨[⟨30, 0⟩, ⟨60, 30⟩, ⟨90, 60⟩, ⟨120, 90⟩, ⟨150, -1⟩]⟩
    ⟨600, 24000, 24050, 23990, 24040, 0⟩ 420 Side.CALL 24090 23900 260 none 0
    (by simp)
    (by intro st hst; fin_cases hst <;> norm_num)
    (by norm_num [List.getLast])
    (by norm_num [ExitManager.check_underlying_sl])).1

/-! ## Claim C3 -/

/-- Claim C3: with entry premium 260 and the default ladder, a Regime-A
`check_exit` call at option premium 291 (gain 31, crossing only the first
trigger) returns no exit, moves to Regime B, and sets
`premium_sl = 260 + 0 = 260`; a later Regime-B call at premium 255 fires
`PREMIUM_TRAIL_SL` at 255, and the trade closed at 255 by
`PositionManager.on_exit` has `gross_pnl = (255 - 260) * lot_size * lots`,
which is negative. -/
theorem exit_scenario_trailing_sl (lot_size lots : ℕ)
    (hls : 0 < lot_size) (hlots : 0 < lots) :
    ExitManager.check_exit ⟨[⟨30, 0⟩, ⟨60, 30⟩, ⟨90, 60⟩, ⟨120, 90⟩, ⟨150, -1⟩]⟩
        ⟨600, 24000, 24050, 23990, 24040, 0⟩ 291 Side.CALL 24090 23900 260 Regime.A none 0 (-1)
      = ⟨none, Regime.B, some 260, 31, 0⟩
    ∧ (ExitManager.check_exit ⟨[⟨30, 0⟩, ⟨60, 30⟩, ⟨90, 60⟩, ⟨120, 90⟩, ⟨150, -1⟩]⟩
        ⟨700, 24010, 24030, 23995, 24010, 0⟩ 255 Side.CALL 24090 23900 260 Regime.B (some 260)
        31 0).signal = some ⟨ExitReason.PREMIUM_TRAIL_SL, 255⟩
    ∧ ((PositionManager.on_exit
          ⟨lot_size, lots,
            { state := PositionState.ACTIVE_REGIME_B, side := some Side.CALL,
              entry_premium := 260 }, 0⟩
          255 700 24010 ExitReason.PREMIUM_TRAIL_SL).1.gross_pnl
        = (255 - 260) * (lot_size : ℚ) * (lots : ℚ)
      ∧ (PositionManager.on_exit
          ⟨lot_size, lots,
            { state := PositionState.ACTIVE_REGIME_B, side := some Side.CALL,
              entry_premium := 260 }, 0⟩
          255 700 24010 ExitReason.PREMIUM_TRAIL_SL).1.gross_pnl < 0) := by
  refine ⟨?_, ?_, ?_, ?_⟩
  · norm_num [ExitManager.check_exit, ExitManager.check_underlying_sl,
      ExitManager.check_ladder_transition, checkLadderLoop, ExitManager.regimeB_block,
      Int.toNat]
  · norm_num [ExitManager.check_exit, ExitManager.check_underlying_sl,
      ExitManager.check_ladder_transition, checkLadderLoop, ExitManager.regimeB_block,
      Int.toNat]
  · simp [PositionManager.on_exit]
  · have hpos : (0 : ℚ) < (lot_size : ℚ) * (lots : ℚ) :=
      mul_pos (by exact_mod_cast hls) (by exact_mod_cast hlots)
    have : (PositionManager.on_exit
        ⟨lot_size, lots,
          { state := PositionState.ACTIVE_REGIME_B, side := some Side.CALL,
            entry_premium := 260 }, 0⟩
        255 700 24010 ExitReason.PREMIUM_TRAIL_SL).1.gross_pnl
        = (255 - 260) * ((lot_size : ℚ) * (lots : ℚ)) := by
      simp [PositionManager.on_exit]
      ring
    rw [this]
    nlinarith

/-- Witness for C3 at the default contract size (lot_size 25, 1 lot). -/
theorem exit_scenario_trailing_sl_witness :
    (ExitManager.check_exit ⟨[⟨30, 0⟩, ⟨60, 30⟩, ⟨90, 60⟩, ⟨120, 90⟩, ⟨150, -1⟩]⟩
        ⟨700, 24010, 24030, 23995, 24010, 0⟩ 255 Side.CALL 24090 23900 260 Regime.B (some 260)
        31 0).signal = some ⟨ExitReason.PREMIUM_TRAIL_SL, 255⟩
    ∧ (PositionManager.on_exit
        ⟨25, 1,
          { state := PositionState.ACTIVE_REGIME_B, side := some Side.CALL,
            entry_premium := 260 }, 0⟩
        255 700 24010 ExitReason.PREMIUM_TRAIL_SL).1.gross_pnl < 0 := by
  have h := exit_scenario_trailing_sl 25 1 (by norm_num) (by norm_num)
  exact ⟨h.2.1, h.2.2.2⟩

/-! ## Claim C9 -/

/-- Claim C9: `last_triggered_ladder_idx` is monotonically non-decreasing
within a trade: under the precondition that the ladder's triggers are
strictly ascending, every `ExitManager.check_exit` call returns a ladder
index at least the index passed in (the scan skips indices at or below the
last-triggered one and stops at the first untriggered trigger), and
`TradingSession._check_exit` persists exactly the returned index onto the
position (stated for calls that do not close the trade; a closing call first
persists it the same way and then resets the position for re-entry). -/
theorem check_exit_idx_monotone (m : ExitManager) (candle : Candle)
    (option_premium : ℚ) (side : Side) (h1 l1 entry_premium : ℚ)
    (current_regime : Regime) (premium_sl : Option ℚ) (highest_gain : ℚ)
    (last_ladder_idx : ℤ) (s : TradingSession) (ucandle : Candle) (p : ℚ) (b : BreakoutInfo)
    (hasc : List.Chain' (fun a b => a.trigger < b.trigger) m.ladder) :
    last_ladder_idx ≤ (m.check_exit candle option_premium side h1 l1 entry_premium
        current_regime premium_sl highest_gain last_ladder_idx).last_ladder_idx
    ∧ (s.position.position.breakout = some b →
        (s.exit.check_exit ucandle p (s.position.position.side.getD Side.PUT) b.h1 b.l1
            s.position.position.entry_premium
            (if s.position.position.state = PositionState.ACTIVE_REGIME_B then Regime.B
              else Regime.A)
            s.position.position.premium_sl s.position.position.highest_premium_gain
            s.position.position.last_triggered_ladder_idx).signal = none →
        (s.check_exit ucandle p).2.position.position.last_triggered_ladder_idx
          = (s.exit.check_exit ucandle p (s.position.position.side.getD Side.PUT) b.h1 b.l1
              s.position.position.entry_premium
              (if s.position.position.state = PositionState.ACTIVE_REGIME_B then Regime.B
                else Regime.A)
              s.position.position.premium_sl s.position.position.highest_premium_gain
              s.position.position.last_triggered_ladder_idx).last_ladder_idx) := by
  constructor
  · unfold ExitManager.check_exit
    dsimp only
    split
    · split
      · exact le_rfl
      · have hge := check_ladder_transition_idx_ge m (option_premium - entry_premium)
          entry_premium premium_sl last_ladder_idx
        rcases htr : m.check_ladder_transition (option_premium - entry_premium) entry_premium
          premium_sl last_ladder_idx with ⟨nr, ns, ni⟩
        rw [htr] at hge
        dsimp only
        split
        · exact le_trans hge (regimeB_block_idx_ge _ _ _ _ _ _ _)
        · exact le_rfl
    · exact regimeB_block_idx_ge _ _ _ _ _ _ _
  · intro hb hsig
    simp only [TradingSession.check_exit]
    rw [hb]
    dsimp only
    set r := s.exit.check_exit ucandle p (s.position.position.side.getD Side.PUT) b.h1 b.l1
      s.position.position.entry_premium
      (if s.position.position.state = PositionState.ACTIVE_REGIME_B then Regime.B
        else Regime.A)
      s.position.position.premium_sl s.position.position.highest_premium_gain
      s.position.position.last_triggered_ladder_idx with hr
    rw [hsig]
    dsimp only
    split
    all_goals split
    all_goals first
      | rfl
      | (cases hreg : r.regime <;> simp [PositionManager.on_regime_change, hreg])

/-- Witness for C9 at concrete inputs: ascending default ladder, a Regime-A
call with gain 1 (no trigger crossed) keeps the index at `-1`, and the
session writes exactly that index back onto the position. -/
theorem check_exit_idx_monotone_witness :
    (-1 : ℤ) ≤ (ExitManager.check_exit ⟨[⟨30, 0⟩, ⟨60, 30⟩, ⟨90, 60⟩, ⟨120, 90⟩, ⟨150, -1⟩]⟩
        ⟨600, 24000, 24050, 23990, 24040, 0⟩ 261 Side.CALL 24090 23900 260 Regime.A none 0
        (-1)).last_ladder_idx := by
  have h := check_exit_idx_monotone ⟨[⟨30, 0⟩, ⟨60, 30⟩, ⟨90, 60⟩, ⟨120, 90⟩, ⟨150, -1⟩]⟩
    ⟨600, 24000, 24050, 23990, 24040, 0⟩ 261 Side.CALL 24090 23900 260 Regime.A none 0 (-1)
    (TradingSession.init {}) ⟨600, 24000, 24050, 23990, 24040, 0⟩ 261
    ⟨Side.CALL, 1, 24070, 23980, 24090, 23980, 558⟩ (by norm_num [List.chain'_cons])
  exact h.1

/-! ## Claim C7 -/

/-- Claim C7, as frozen, is false on one point: it asserts that a candle
before the force-exit cutoff processed with `option_premium = None` leaves
the position's lifecycle state unchanged. When the breakout detector confirms
on that very candle, `process_candle` still runs breakout detection (phase 2
does not consult the premium) and `PositionManager.on_breakout` moves the
position from IDLE to WAITING_ENTRY. Concretely: a session whose opening
range is complete (`h3 = 24070`, `l3 = 23980`) and whose breakout detector
is still unconfirmed, fed a candle closing at 24080 with premium `none`,
returns no trade but its position's state changes from IDLE to
WAITING_ENTRY. -/
theorem process_candle_none_premium_counterexample :
    (TradingSession.process_candle
        { config := {}
          trades := []
          orb := ⟨3, [⟨555, 24000, 24050, 23980, 24010, 0⟩, ⟨556, 24010, 24060, 24010, 24020, 0⟩,
              ⟨557, 24020, 24070, 24020, 24030, 0⟩], some 24070, some 23980⟩
          breakout := some (BreakoutDetector.init 24070 23980)
          entry := some ⟨40, 65, 690, 4⟩
          exit := ⟨[⟨30, 0⟩, ⟨60, 30⟩, ⟨90, 60⟩, ⟨120, 90⟩, ⟨150, -1⟩]⟩
          position := PositionManager.init 25 1
          rsi := RSI.init 14
          supertrend := SuperTrend.init 10 3
          candle_count := 3
          last_candle := none
          day_done := false
          ce_symbol := none
          pe_symbol := none }
        ⟨558, 24030, 24090, 24025, 24080, 0⟩ none).1 = none
    ∧ (TradingSession.process_candle
        { config := {}
          trades := []
          orb := ⟨3, [⟨555, 24000, 24050, 23980, 24010, 0⟩, ⟨556, 24010, 24060, 24010, 24020, 0⟩,
              ⟨557, 24020, 24070, 24020, 24030, 0⟩], some 24070, some 23980⟩
          breakout := some (BreakoutDetector.init 24070 23980)
          entry := some ⟨40, 65, 690, 4⟩
          exit := ⟨[⟨30, 0⟩, ⟨60, 30⟩, ⟨90, 60⟩, ⟨120, 90⟩, ⟨150, -1⟩]⟩
          position := PositionManager.init 25 1
          rsi := RSI.init 14
          supertrend := SuperTrend.init 10 3
          candle_count := 3
          last_candle := none
          day_done := false
          ce_symbol := none
          pe_symbol := none }
        ⟨558, 24030, 24090, 24025, 24080, 0⟩ none).2.position.position.state
      = PositionState.WAITING_ENTRY
    ∧ (PositionManager.init 25 1).position.state = PositionState.IDLE
    ∧ (558 : ℕ) < (SessionConfig.force_exit_time {}) := by
  refine ⟨?_, ?_, rfl, by norm_num [SessionConfig.force_exit_time]⟩ <;>
    norm_num [TradingSession.process_candle, TradingSession.handle_force_exit,
      OpeningRangeDetector.is_complete, OpeningRangeDetector.update, BreakoutDetector.update,
      BreakoutDetector.is_confirmed, BreakoutDetector.init, PositionManager.init,
      PositionManager.on_breakout, PositionManager.is_active, Position.is_active,
      RSI.update, RSI.init, SuperTrend.update, SuperTrend.init, SessionConfig.force_exit_time]

/-- Claim C7 (amended): for every candle before the force-exit cutoff
supplied with `option_premium = none`, `process_candle` returns `none`, emits
no trade, opens no position, and leaves `premium_sl`, highest gain, ladder
index, per-side entry counters, entry premium, trades and `is_done`
unchanged; the lifecycle state is also unchanged *except* that a breakout
confirmed on that candle moves an IDLE position to WAITING_ENTRY (only the
indicators, opening-range detector, and breakout detector otherwise advance
that candle). -/
theorem process_candle_none_premium (s : TradingSession) (candle : Candle)
    (htime : candle.timestamp < s.config.session.force_exit_time) :
    (s.process_candle candle none).1 = none
    ∧ (s.process_candle candle none).2.trades = s.trades
    ∧ (s.process_candle candle none).2.day_done = s.day_done
    ∧ (s.process_candle candle none).2.position.position.premium_sl
        = s.position.position.premium_sl
    ∧ (s.process_candle candle none).2.position.position.highest_premium_gain
        = s.position.position.highest_premium_gain
    ∧ (s.process_candle candle none).2.position.position.last_triggered_ladder_idx
        = s.position.position.last_triggered_ladder_idx
    ∧ (s.process_candle candle none).2.position.position.call_entries_today
        = s.position.position.call_entries_today
    ∧ (s.process_candle candle none).2.position.position.put_entries_today
        = s.position.position.put_entries_today
    ∧ (s.process_candle candle none).2.position.position.entry_premium
        = s.position.position.entry_premium
    ∧ ((s.process_candle candle none).2.position.position.state = s.position.position.state
        ∨ (s.position.position.state = PositionState.IDLE
          ∧ (s.process_candle candle none).2.position.position.state
            = PositionState.WAITING_ENTRY)) := by
  have hforce : ¬ (s.config.session.force_exit_time ≤ candle.timestamp) := not_le.mpr htime
  by_cases hdone : s.day_done = true
  · simp [TradingSession.process_candle, hdone]
  · by_cases horb : s.orb.is_complete = true
    · by_cases hbk : ∃ bd, s.breakout = some bd
      · obtain ⟨bd, hbd⟩ := hbk
        by_cases hconf : bd.is_confirmed = true
        · simp [TradingSession.process_candle, hdone, horb, hforce, hbd, hconf,
            PositionManager.is_active]
        · rcases hbu : bd.update candle with ⟨info, bd2⟩
          cases info with
          | none =>
            simp [TradingSession.process_candle, hdone, horb, hforce, hbd, hconf, hbu,
              PositionManager.is_active]
          | some i =>
            by_cases hidle : s.position.position.state = PositionState.IDLE
            · simp [TradingSession.process_candle, hdone, horb, hforce, hbd, hconf, hbu,
                PositionManager.on_breakout, hidle, PositionManager.is_active]
            · simp [TradingSession.process_candle, hdone, horb, hforce, hbd, hconf, hbu,
                PositionManager.on_breakout, hidle, PositionManager.is_active]
      · have hnone : s.breakout = none := by
          cases hb2 : s.breakout with
          | none => rfl
          | some bd => exact absurd ⟨bd, hb2⟩ hbk
        simp [TradingSession.process_candle, hdone, horb, hforce, hnone,
          PositionManager.is_active]
    · rcases hupd : s.orb.update candle with ⟨completed, orb2⟩
      by_cases hc : completed = true
      · rcases hh3 : orb2.h3 with _ | h3v <;> rcases hl3 : orb2.l3 with _ | l3v <;>
          simp [TradingSession.process_candle, hdone, horb, hupd, hc, hh3, hl3]
      · simp [TradingSession.process_candle, hdone, horb, hupd, hc]

/-- Witness for amended C7: a fresh session fed its very first candle (ORB
accumulation) with premium `none` returns no trade and keeps the position
IDLE. -/
theorem process_candle_none_premium_witness :
    ((TradingSession.init {}).process_candle ⟨555, 24000, 24050, 23980, 24010, 0⟩ none).1 = none
    ∧ ((TradingSession.init {}).process_candle
        ⟨555, 24000, 24050, 23980, 24010, 0⟩ none).2.trades = (TradingSession.init {}).trades := by
  have h := process_candle_none_premium (TradingSession.init {})
    ⟨555, 24000, 24050, 23980, 24010, 0⟩
    (by norm_num [TradingSession.init, SessionConfig.force_exit_time])
  exact ⟨h.1, h.2.1⟩

/-! ## Claim C10 -/

/-- Claim C10, as frozen, is false on one point: it asserts that a candle at
or past `force_exit_time` with no open position returns `None` and still sets
`is_done`. The force-exit check only runs once the opening range is complete:
a fresh session fed its very first candle timestamped past the cutoff
consumes it for ORB accumulation, returns `None`, and leaves `is_done`
unset. -/
theorem process_candle_force_exit_counterexample :
    ((TradingSession.init {}).process_candle ⟨920, 24000, 24050, 23980, 24010, 0⟩ none).1 = none
    ∧ ((TradingSession.init {}).process_candle ⟨920, 24000, 24050, 23980, 24010, 0⟩
        none).2.day_done = false
    ∧ (TradingSession.init {}).position.is_active = false
    ∧ SessionConfig.force_exit_time {} ≤ 920 := by
  refine ⟨?_, ?_, by decide, by norm_num [SessionConfig.force_exit_time]⟩ <;>
    norm_num [TradingSession.process_candle, TradingSession.init, OpeningRangeDetector.init,
      OpeningRangeDetector.is_complete, OpeningRangeDetector.update, RSI.init, RSI.update,
      SuperTrend.init, SuperTrend.update]

/-- Claim C10 (amended): once the opening range is complete and the day not
yet done, a candle at or past `force_exit_time` processed with
`option_premium = none` sets `is_done`; if a position is open it is closed
with reason `FORCE_EXIT` at exit premium `0.0`, yielding a TradeRecord with
`gross_pnl = (0 - entry_premium) * lot_size * lots`; if no position is open
the call returns `none` (and still sets `is_done`). -/
theorem process_candle_force_exit (s : TradingSession) (candle : Candle)
    (hdone : s.day_done = false) (horb : s.orb.is_complete = true)
    (htime : s.config.session.force_exit_time ≤ candle.timestamp) :
    (s.process_candle candle none).2.day_done = true
    ∧ (s.position.is_active = true →
        ∃ t, (s.process_candle candle none).1 = some t
          ∧ t.exit_reason = ExitReason.FORCE_EXIT
          ∧ t.exit_premium = 0
          ∧ t.gross_pnl = (0 - s.position.position.entry_premium)
              * (s.position.lot_size : ℚ) * (s.position.lots : ℚ))
    ∧ (s.position.is_active = false → (s.process_candle candle none).1 = none) := by
  by_cases hact : s.position.is_active = true
  · refine ⟨?_, fun _ => ?_, fun hfalse => by simp [hfalse] at hact⟩
    · simp [TradingSession.process_candle, TradingSession.handle_force_exit, hdone, horb,
        htime, hact]
    · refine ⟨(s.position.on_exit 0 candle.timestamp candle.close ExitReason.FORCE_EXIT).1,
        ?_, ?_, ?_, ?_⟩
      · simp [TradingSession.process_candle, TradingSession.handle_force_exit, hdone, horb,
          htime, hact, ExitManager.check_force_exit]
      · simp [PositionManager.on_exit]
      · simp [PositionManager.on_exit]
      · simp [PositionManager.on_exit]
  · have hfalse : s.position.is_active = false := by
      simpa using hact
    refine ⟨?_, fun htrue => absurd htrue hact, fun _ => ?_⟩
    · simp [TradingSession.process_candle, TradingSession.handle_force_exit, hdone, horb,
        htime, hfalse]
    · simp [TradingSession.process_candle, TradingSession.handle_force_exit, hdone, horb,
        htime, hfalse]

/-- Witness for amended C10: a session whose opening range is complete, fed a
post-cutoff candle with premium `none` and no open position, returns `none`
and is done. -/
theorem process_candle_force_exit_witness :
    ((TradingSession.process_candle
        { config := {}
          trades := []
          orb := ⟨3, [⟨555, 24000, 24050, 23980, 24010, 0⟩, ⟨556, 24010, 24060, 24010, 24020, 0⟩,
              ⟨557, 24020, 24070, 24020, 24030, 0⟩], some 24070, some 23980⟩
          breakout := some (BreakoutDetector.init 24070 23980)
          entry := some ⟨40, 65, 690, 4⟩
          exit := ⟨[⟨30, 0⟩, ⟨60, 30⟩, ⟨90, 60⟩, ⟨120, 90⟩, ⟨150, -1⟩]⟩
          position := PositionManager.init 25 1
          rsi := RSI.init 14
          supertrend := SuperTrend.init 10 3
          candle_count := 3
          last_candle := none
          day_done := false
          ce_symbol := none
          pe_symbol := none }
        ⟨920, 24030, 24090, 24025, 24080, 0⟩ none).2.day_done = true)
    ∧ ((TradingSession.process_candle
        { config := {}
          trades := []
          orb := ⟨3, [⟨555, 24000, 24050, 23980, 24010, 0⟩, ⟨556, 24010, 24060, 24010, 24020, 0⟩,
              ⟨557, 24020, 24070, 24020, 24030, 0⟩], some 24070, some 23980⟩
          breakout := some (BreakoutDetector.init 24070 23980)
          entry := some ⟨40, 65, 690, 4⟩
          exit := ⟨[⟨30, 0⟩, ⟨60, 30⟩, ⟨90, 60⟩, ⟨120, 90⟩, ⟨150, -1⟩]⟩
          position := PositionManager.init 25 1
          rsi := RSI.init 14
          supertrend := SuperTrend.init 10 3
          candle_count := 3
          last_candle := none
          day_done := false
          ce_symbol := none
          pe_symbol := none }
        ⟨920, 24030, 24090, 24025, 24080, 0⟩ none).1 = none) := by
  have h := process_candle_force_exit
    { config := {}
      trades := []
      orb := ⟨3, [⟨555, 24000, 24050, 23980, 24010, 0⟩, ⟨556, 24010, 24060, 24010, 24020, 0⟩,
          ⟨557, 24020, 24070, 24020, 24030, 0⟩], some 24070, some 23980⟩
      breakout := some (BreakoutDetector.init 24070 23980)
      entry := some ⟨40, 65, 690, 4⟩
      exit := ⟨[⟨30, 0⟩, ⟨60, 30⟩, ⟨90, 60⟩, ⟨120, 90⟩, ⟨150, -1⟩]⟩
      position := PositionManager.init 25 1
      rsi := RSI.init 14
      supertrend := SuperTrend.init 10 3
      candle_count := 3
      last_candle := none
      day_done := false
      ce_symbol := none
      pe_symbol := none }
    ⟨920, 24030, 24090, 24025, 24080, 0⟩ rfl (by decide)
    (by norm_num [SessionConfig.force_exit_time])
  exact ⟨h.1, h.2.2 (by decide)⟩

/-! ## Claim C8 -/

/-- Claim C8: for every trade finalized by the replay engine, the recorded
entry premium is the raw entry premium plus `slippage_points`, the recorded
exit premium is the raw exit premium minus `slippage_points` floored at
`0.05`, `gross_pnl` is recomputed from the slipped premiums, `charges` is the
sum of brokerage (flat, twice), STT on the sell notional, GST on brokerage,
stamp duty on the buy notional, and exchange plus SEBI charges on the total
notional, and `net_pnl = gross_pnl - charges`. -/
theorem finalize_trade_spec (bc : BacktestConfig) (trade : TradeRecord) :
    (BacktestEngine.finalize_trade bc trade).entry_premium
        = trade.entry_premium + bc.slippage_points
    ∧ (BacktestEngine.finalize_trade bc trade).exit_premium
        = max 0.05 (trade.exit_premium - bc.slippage_points)
    ∧ (BacktestEngine.finalize_trade bc trade).gross_pnl
        = ((BacktestEngine.finalize_trade bc trade).exit_premium
            - (BacktestEngine.finalize_trade bc trade).entry_premium)
          * (trade.lot_size : ℚ) * (trade.lots : ℚ)
    ∧ (BacktestEngine.finalize_trade bc trade).charges
        = bc.brokerage_per_order * 2
          + bc.stt_rate * ((BacktestEngine.finalize_trade bc trade).exit_premium
              * ((trade.lot_size : ℚ) * (trade.lots : ℚ)))
          + bc.gst_rate * (bc.brokerage_per_order * 2)
          + bc.stamp_duty * ((BacktestEngine.finalize_trade bc trade).entry_premium
              * ((trade.lot_size : ℚ) * (trade.lots : ℚ)))
          + bc.exchange_txn_charge
            * ((BacktestEngine.finalize_trade bc trade).entry_premium
                * ((trade.lot_size : ℚ) * (trade.lots : ℚ))
              + (BacktestEngine.finalize_trade bc trade).exit_premium
                * ((trade.lot_size : ℚ) * (trade.lots : ℚ)))
          + bc.sebi_charges
            * ((BacktestEngine.finalize_trade bc trade).entry_premium
                * ((trade.lot_size : ℚ) * (trade.lots : ℚ))
              + (BacktestEngine.finalize_trade bc trade).exit_premium
                * ((trade.lot_size : ℚ) * (trade.lots : ℚ)))
    ∧ (BacktestEngine.finalize_trade bc trade).net_pnl
        = (BacktestEngine.finalize_trade bc trade).gross_pnl
          - (BacktestEngine.finalize_trade bc trade).charges := by
  refine ⟨rfl, rfl, rfl, ?_, rfl⟩
  simp only [BacktestEngine.finalize_trade, BrokerSimulator.apply_costs,
    BrokerSimulator.calculate_costs, BrokerSimulator.apply_slippage]
  ring

/-! ## Claim C6: RSI warm-up and extreme sequences -/

/-- `RSI.update` on the very first close only records the baseline. -/
theorem RSI.update_first (r : RSI) (c : ℚ) (h : r.prev_close = none) :
    r.update c = (none, { r with
      count := r.count + 1, prev_close := some c }) := by
  simp [RSI.update, h]

/-- `RSI.update` while accumulating and still short of `period` samples:
buffer the gain/loss pair and return nothing. -/
theorem RSI.update_acc (r : RSI) (c c0 : ℚ) (hprev : r.prev_close = some c0)
    (havgs : r.avgs = none) (hcond : r.gain_buf.length + 1 < r.period) :
    r.update c = (none,
      { r with
        count := r.count + 1, prev_close := some c,
        gain_buf := r.gain_buf ++ [max (c - c0) 0],
        loss_buf := r.loss_buf ++ [max (-(c - c0)) 0] }) := by
  simp [RSI.update, hprev, havgs, hcond]

/-- `RSI.update` on the close that completes the seed window: set the
averages to the simple means and return the first value. -/
theorem RSI.update_seed (r : RSI) (c c0 : ℚ) (hprev : r.prev_close = some c0)
    (havgs : r.avgs = none) (hcond : ¬ r.gain_buf.length + 1 < r.period) :
    r.update c =
      (some (RSI.compute_rsi ((r.gain_buf ++ [max (c - c0) 0]).sum / (r.period : ℚ))
          ((r.loss_buf ++ [max (-(c - c0)) 0]).sum / (r.period : ℚ))),
        { r with
          count := r.count + 1, prev_close := some c,
          avgs := some ((r.gain_buf ++ [max (c - c0) 0]).sum / (r.period : ℚ),
            (r.loss_buf ++ [max (-(c - c0)) 0]).sum / (r.period : ℚ)),
          gain_buf := [], loss_buf := [] }) := by
  simp [RSI.update, hprev, havgs, hcond]

/-- `RSI.update` after seeding: Wilder-smooth both averages. -/
theorem RSI.update_smooth (r : RSI) (c c0 ag al : ℚ) (hprev : r.prev_close = some c0)
    (havgs : r.avgs = some (ag, al)) :
    r.update c =
      (some (RSI.compute_rsi (ag * (1 - r.alpha) + max (c - c0) 0 * r.alpha)
          (al * (1 - r.alpha) + max (-(c - c0)) 0 * r.alpha)),
        { r with
          count := r.count + 1, prev_close := some c,
          avgs := some (ag * (1 - r.alpha) + max (c - c0) 0 * r.alpha,
            al * (1 - r.alpha) + max (-(c - c0)) 0 * r.alpha) }) := by
  simp [RSI.update, hprev, havgs]

/-- `compute_rsi` with zero average loss is 100. -/
theorem compute_rsi_zero_loss (ag : ℚ) : RSI.compute_rsi ag 0 = 100 := by
  simp [RSI.compute_rsi]

/-- `compute_rsi` with zero average gain and positive average loss is 0. -/
theorem compute_rsi_zero_gain (al : ℚ) (h : 0 < al) : RSI.compute_rsi 0 al = 0 := by
  unfold RSI.compute_rsi
  rw [if_neg (ne_of_gt h)]
  norm_num

/-- One `RSI.update` preserves the shape invariant and is `some` exactly once
`period` closes have already been seen. -/
theorem rsiShape_step (P n : ℕ) (r : RSI) (c : ℚ) (hP : 1 ≤ P) (h : rsiShape P n r) :
    rsiShape P (n + 1) (r.update c).2 ∧ ((r.update c).1.isSome ↔ P ≤ n) := by
  obtain ⟨hper, h0, hsome, hacc, hwarm⟩ := h
  by_cases hn : n = 0
  · subst hn
    have hprev : r.prev_close = none := h0 rfl
    obtain ⟨havgs, hlen⟩ := hacc (Nat.zero_le P)
    rw [RSI.update_first r c hprev]
    refine ⟨⟨hper, ?_, ?_, ?_, ?_⟩, ?_⟩
    · intro hcontra; exact absurd hcontra (by omega)
    · intro _; exact ⟨c, rfl⟩
    · intro _; exact ⟨havgs, by simpa using hlen⟩
    · intro hlt; exact absurd hlt (by omega)
    · simp
      omega
  · have hpos : 0 < n := Nat.pos_of_ne_zero hn
    obtain ⟨c0, hc0⟩ := hsome hpos
    by_cases hnP : n ≤ P
    · obtain ⟨havgs, hlen⟩ := hacc hnP
      by_cases hlt : n < P
      · have hcond : r.gain_buf.length + 1 < r.period := by
          rw [hlen, hper]
          omega
        rw [RSI.update_acc r c c0 hc0 havgs hcond]
        refine ⟨⟨hper, ?_, ?_, ?_, ?_⟩, ?_⟩
        · intro hcontra; exact absurd hcontra (by omega)
        · intro _; exact ⟨c, rfl⟩
        · intro _
          refine ⟨havgs, ?_⟩
          simp [hlen]
          omega
        · intro hw; exact absurd hw (by omega)
        · simp
          omega
      · have hcond : ¬ r.gain_buf.length + 1 < r.period := by
          rw [hlen, hper]
          omega
        rw [RSI.update_seed r c c0 hc0 havgs hcond]
        refine ⟨⟨hper, ?_, ?_, ?_, ?_⟩, ?_⟩
        · intro hcontra; exact absurd hcontra (by omega)
        · intro _; exact ⟨c, rfl⟩
        · intro hle; exact absurd hle (by omega)
        · intro _; exact ⟨_, rfl⟩
        · simp
          omega
    · obtain ⟨a, ha⟩ := hwarm (by omega)
      obtain ⟨ag, al⟩ := a
      rw [RSI.update_smooth r c c0 ag al hc0 ha]
      refine ⟨⟨hper, ?_, ?_, ?_, ?_⟩, ?_⟩
      · intro hcontra; exact absurd hcontra (by omega)
      · intro _; exact ⟨c, rfl⟩
      · intro hle; exact absurd hle (by omega)
      · intro _; exact ⟨_, rfl⟩
      · simp
        omega

/-- Running an `RSI` in shape `n` over a list: the `i`-th output is `some`
exactly when `P ≤ n + i`. -/
theorem rsiShape_run (P : ℕ) (hP : 1 ≤ P) :
    ∀ (cs : List ℚ) (n : ℕ) (r : RSI), rsiShape P n r →
      ∀ i, i < cs.length → (((r.run cs).getD i none).isSome ↔ P ≤ n + i) := by
  intro cs
  induction cs with
  | nil => intro n r _ i hi; simp at hi
  | cons c cs ih =>
    intro n r h i hi
    obtain ⟨hstep, hout⟩ := rsiShape_step P n r c hP h
    cases i with
    | zero => simpa [RSI.run] using hout
    | succ j =>
      have hj := ih (n + 1) (r.update c).2 hstep j (by simpa using hi)
      simp only [RSI.run, List.getD_cons_succ]
      rw [hj]
      constructor <;> intro <;> omega

/-- One `RSI.update` with a close at or above the previous one preserves the
non-decreasing invariant, reports 100 whenever it reports anything, and
records the new baseline. -/
theorem rsiInc_step (r : RSI) (c : ℚ) (hinc : rsiInc r)
    (hprev : ∀ p, r.prev_close = some p → p ≤ c) :
    rsiInc (r.update c).2 ∧ (∀ v, (r.update c).1 = some v → v = 100)
      ∧ (r.update c).2.prev_close = some c := by
  obtain ⟨hbuf, havg⟩ := hinc
  cases hc : r.prev_close with
  | none =>
    rw [RSI.update_first r c hc]
    exact ⟨⟨hbuf, havg⟩, fun v hv => absurd hv (by simp), rfl⟩
  | some p =>
    have hpc : p ≤ c := hprev p hc
    have hloss : max (-(c - p)) 0 = 0 := max_eq_right (by linarith)
    cases ha : r.avgs with
    | none =>
      by_cases hcond : r.gain_buf.length + 1 < r.period
      · rw [RSI.update_acc r c p hc ha hcond]
        refine ⟨⟨?_, havg⟩, fun v hv => absurd hv (by simp), rfl⟩
        intro x hx
        rcases List.mem_append.mp hx with hx | hx
        · exact hbuf x hx
        · rw [List.mem_singleton.mp hx]
          exact hloss
      · rw [RSI.update_seed r c p hc ha hcond]
        have hsl : (r.loss_buf ++ [max (-(c - p)) 0]).sum = 0 := by
          apply List.sum_eq_zero
          intro x hx
          rcases List.mem_append.mp hx with hx | hx
          · exact hbuf x hx
          · rw [List.mem_singleton.mp hx]
            exact hloss
        have hsl0 : (r.loss_buf ++ [max (-(c - p)) 0]).sum / (r.period : ℚ) = 0 := by
          rw [hsl]
          simp
        refine ⟨⟨?_, ?_⟩, ?_, rfl⟩
        · intro x hx; exact absurd hx (List.not_mem_nil x)
        · intro a hamem
          have hae := Option.some.inj (Option.mem_def.mp hamem)
          rw [← hae]
          exact hsl0
        · intro v hv
          have hve := Option.some.inj hv
          rw [← hve, hsl0]
          exact compute_rsi_zero_loss _
    | some a =>
      obtain ⟨ag, al⟩ := a
      have hal : al = 0 := havg (ag, al) ha
      rw [RSI.update_smooth r c p ag al hc ha]
      have hal' : al * (1 - r.alpha) + max (-(c - p)) 0 * r.alpha = 0 := by
        rw [hal, hloss]
        ring
      refine ⟨⟨hbuf, ?_⟩, ?_, rfl⟩
      · intro a hamem
        have hae := Option.some.inj (Option.mem_def.mp hamem)
        rw [← hae]
        exact hal'
      · intro v hv
        have hve := Option.some.inj hv
        rw [← hve, hal']
        exact compute_rsi_zero_loss _

/-- Running an `RSI` holding the non-decreasing invariant over a strictly
increasing list whose head is at or above the baseline: every `some` output
is 100. -/
theorem rsiInc_run :
    ∀ (cs : List ℚ) (r : RSI), rsiInc r → List.Chain' (· < ·) cs →
      (∀ p, r.prev_close = some p → ∀ c0, cs.head? = some c0 → p ≤ c0) →
      ∀ i, i < cs.length → ∀ v, (r.run cs).getD i none = some v → v = 100 := by
  intro cs
  induction cs with
  | nil => intro r _ _ _ i hi; simp at hi
  | cons c cs ih =>
    intro r hinc hchain hlink i hi v hv
    have hprev : ∀ p, r.prev_close = some p → p ≤ c := fun p hp => hlink p hp c rfl
    obtain ⟨hinc2, hout, hprev2⟩ := rsiInc_step r c hinc hprev
    cases i with
    | zero =>
      apply hout
      simpa [RSI.run] using hv
    | succ j =>
      have hchain2 : List.Chain' (· < ·) cs := hchain.tail
      have hlink2 : ∀ p, (r.update c).2.prev_close = some p →
          ∀ c0, cs.head? = some c0 → p ≤ c0 := by
        intro p hp c0 hc0
        rw [hprev2] at hp
        have hcp := Option.some.inj hp
        subst hcp
        cases cs with
        | nil => exact absurd hc0 (by simp)
        | cons c1 cs2 =>
          have hc1 : c0 = c1 := by simpa using hc0.symm
          subst hc1
          exact le_of_lt (List.chain'_cons.mp hchain).1
      exact ih (r.update c).2 hinc2 hchain2 hlink2 j (by simpa using hi) v
        (by simpa [RSI.run] using hv)

/-- One `RSI.update` with a close strictly below the previous one preserves
the decreasing invariant, reports 0 whenever it reports anything, and records
the new baseline. -/
theorem rsiDec_step (r : RSI) (c : ℚ) (hdec : rsiDec r)
    (hprev : ∀ p, r.prev_close = some p → c < p) :
    rsiDec (r.update c).2 ∧ (∀ v, (r.update c).1 = some v → v = 0)
      ∧ (r.update c).2.prev_close = some c := by
  obtain ⟨hper, halpha, hgbuf, hlbuf, havg⟩ := hdec
  cases hc : r.prev_close with
  | none =>
    rw [RSI.update_first r c hc]
    exact ⟨⟨hper, halpha, hgbuf, hlbuf, havg⟩, fun v hv => absurd hv (by simp), rfl⟩
  | some p =>
    have hcp : c < p := hprev p hc
    have hgain : max (c - p) 0 = 0 := max_eq_right (by linarith)
    have hloss0 : 0 < max (-(c - p)) 0 := by
      rw [max_eq_left (by linarith)]
      linarith
    have hP0 : (0 : ℚ) < (r.period : ℚ) := by
      have : 0 < r.period := by omega
      exact_mod_cast this
    cases ha : r.avgs with
    | none =>
      by_cases hcond : r.gain_buf.length + 1 < r.period
      · rw [RSI.update_acc r c p hc ha hcond]
        refine ⟨⟨hper, halpha, ?_, ?_, havg⟩, fun v hv => absurd hv (by simp), rfl⟩
        · intro x hx
          rcases List.mem_append.mp hx with hx | hx
          · exact hgbuf x hx
          · rw [List.mem_singleton.mp hx]
            exact hgain
        · intro x hx
          rcases List.mem_append.mp hx with hx | hx
          · exact hlbuf x hx
          · rw [List.mem_singleton.mp hx]
            exact hloss0
      · rw [RSI.update_seed r c p hc ha hcond]
        have hsg : (r.gain_buf ++ [max (c - p) 0]).sum = 0 := by
          apply List.sum_eq_zero
          intro x hx
          rcases List.mem_append.mp hx with hx | hx
          · exact hgbuf x hx
          · rw [List.mem_singleton.mp hx]
            exact hgain
        have hslpos : 0 < (r.loss_buf ++ [max (-(c - p)) 0]).sum := by
          apply List.sum_pos
          · intro x hx
            rcases List.mem_append.mp hx with hx | hx
            · exact hlbuf x hx
            · rw [List.mem_singleton.mp hx]
              exact hloss0
          · simp
        have hag0 : (r.gain_buf ++ [max (c - p) 0]).sum / (r.period : ℚ) = 0 := by
          rw [hsg]
          simp
        have hal0 : 0 < (r.loss_buf ++ [max (-(c - p)) 0]).sum / (r.period : ℚ) :=
          div_pos hslpos hP0
        refine ⟨⟨hper, halpha, ?_, ?_, ?_⟩, ?_, rfl⟩
        · intro x hx; exact absurd hx (List.not_mem_nil x)
        · intro x hx; exact absurd hx (List.not_mem_nil x)
        · intro a hamem
          have hae := Option.some.inj (Option.mem_def.mp hamem)
          rw [← hae]
          exact ⟨hag0, hal0⟩
        · intro v hv
          have hve := Option.some.inj hv
          rw [← hve, hag0]
          exact compute_rsi_zero_gain _ hal0
    | some a =>
      obtain ⟨ag, al⟩ := a
      obtain ⟨hag0, hal0⟩ := havg (ag, al) ha
      have hag : ag = 0 := hag0
      have hal : (0 : ℚ) < al := hal0
      rw [RSI.update_smooth r c p ag al hc ha]
      have halpha_pos : 0 < r.alpha := by
        rw [halpha]
        exact one_div_pos.mpr hP0
      have halpha_le : r.alpha ≤ 1 := by
        rw [halpha, div_le_one hP0]
        exact_mod_cast hper
      have hag' : ag * (1 - r.alpha) + max (c - p) 0 * r.alpha = 0 := by
        rw [hag, hgain]
        ring
      have hal' : 0 < al * (1 - r.alpha) + max (-(c - p)) 0 * r.alpha := by
        have h1 : 0 ≤ al * (1 - r.alpha) := mul_nonneg (le_of_lt hal) (by linarith)
        have h2 : 0 < max (-(c - p)) 0 * r.alpha := mul_pos hloss0 halpha_pos
        linarith
      refine ⟨⟨hper, halpha, hgbuf, hlbuf, ?_⟩, ?_, rfl⟩
      · intro a hamem
        have hae := Option.some.inj (Option.mem_def.mp hamem)
        rw [← hae]
        exact ⟨hag', hal'⟩
      · intro v hv
        have hve := Option.some.inj hv
        rw [← hve, hag']
        exact compute_rsi_zero_gain _ hal'

/-- Running an `RSI` holding the decreasing invariant over a strictly
decreasing list whose head is strictly below the baseline: every `some`
output is 0. -/
theorem rsiDec_run :
    ∀ (cs : List ℚ) (r : RSI), rsiDec r → List.Chain' (· > ·) cs →
      (∀ p, r.prev_close = some p → ∀ c0, cs.head? = some c0 → c0 < p) →
      ∀ i, i < cs.length → ∀ v, (r.run cs).getD i none = some v → v = 0 := by
  intro cs
  induction cs with
  | nil => intro r _ _ _ i hi; simp at hi
  | cons c cs ih =>
    intro r hdec hchain hlink i hi v hv
    have hprev : ∀ p, r.prev_close = some p → c < p := fun p hp => hlink p hp c rfl
    obtain ⟨hdec2, hout, hprev2⟩ := rsiDec_step r c hdec hprev
    cases i with
    | zero =>
      apply hout
      simpa [RSI.run] using hv
    | succ j =>
      have hchain2 : List.Chain' (· > ·) cs := hchain.tail
      have hlink2 : ∀ p, (r.update c).2.prev_close = some p →
          ∀ c0, cs.head? = some c0 → c0 < p := by
        intro p hp c0 hc0
        rw [hprev2] at hp
        have hcp := Option.some.inj hp
        subst hcp
        cases cs with
        | nil => exact absurd hc0 (by simp)
        | cons c1 cs2 =>
          have hc1 : c0 = c1 := by simpa using hc0.symm
          subst hc1
          exact (List.chain'_cons.mp hchain).1
      exact ih (r.update c).2 hdec2 hchain2 hlink2 j (by simpa using hi) v
        (by simpa [RSI.run] using hv)

/-- Claim C6: for every period `P ≥ 1`, `RSI.update` returns `None` for the
first `P` closes and a numeric value from the `(P+1)`-th close onward;
moreover, over every strictly increasing price sequence every value returned
after warm-up equals 100 (the average loss stays zero), and over every
strictly decreasing sequence every such value equals 0. -/
theorem rsi_warmup_and_extremes (P : ℕ) (hP : 1 ≤ P) (cs : List ℚ) :
    (∀ i, i < cs.length → ((((RSI.init P).run cs).getD i none).isSome ↔ P ≤ i))
    ∧ (List.Chain' (· < ·) cs → ∀ i, i < cs.length → P ≤ i →
        ((RSI.init P).run cs).getD i none = some 100)
    ∧ (List.Chain' (· > ·) cs → ∀ i, i < cs.length → P ≤ i →
        ((RSI.init P).run cs).getD i none = some 0) := by
  have hshape : rsiShape P 0 (RSI.init P) :=
    ⟨rfl, fun _ => rfl, fun h => absurd h (by omega), fun _ => ⟨rfl, rfl⟩,
      fun h => absurd h (by omega)⟩
  refine ⟨?_, ?_, ?_⟩
  · intro i hi
    simpa using rsiShape_run P hP cs 0 (RSI.init P) hshape i hi
  · intro hchain i hi hPi
    have hs : (((RSI.init P).run cs).getD i none).isSome :=
      (rsiShape_run P hP cs 0 (RSI.init P) hshape i hi).mpr (by omega)
    obtain ⟨v, hv⟩ := Option.isSome_iff_exists.mp hs
    have h100 := rsiInc_run cs (RSI.init P)
      ⟨fun x hx => absurd hx (List.not_mem_nil x), fun a ha => absurd ha (by simp [RSI.init])⟩
      hchain (fun p hp => absurd hp (by simp [RSI.init])) i hi v hv
    rw [hv, h100]
  · intro hchain i hi hPi
    have hs : (((RSI.init P).run cs).getD i none).isSome :=
      (rsiShape_run P hP cs 0 (RSI.init P) hshape i hi).mpr (by omega)
    obtain ⟨v, hv⟩ := Option.isSome_iff_exists.mp hs
    have h0 := rsiDec_run cs (RSI.init P)
      ⟨hP, rfl, fun x hx => absurd hx (List.not_mem_nil x),
        fun x hx => absurd hx (List.not_mem_nil x), fun a ha => absurd ha (by simp [RSI.init])⟩
      hchain (fun p hp => absurd hp (by simp [RSI.init])) i hi v hv
    rw [hv, h0]

/-- Witness for C6 at `P = 1`: output 0 is `none`, the strictly increasing
pair `[1, 2]` reports 100 at output 1, the strictly decreasing pair `[2, 1]`
reports 0 there. -/
theorem rsi_warmup_and_extremes_witness :
    ¬ (((RSI.init 1).run [(1 : ℚ), 2]).getD 0 none).isSome = true
    ∧ ((RSI.init 1).run [(1 : ℚ), 2]).getD 1 none = some 100
    ∧ ((RSI.init 1).run [(2 : ℚ), 1]).getD 1 none = some 0 := by
  have h12 := rsi_warmup_and_extremes 1 (by norm_num) [(1 : ℚ), 2]
  have h21 := rsi_warmup_and_extremes 1 (by norm_num) [(2 : ℚ), 1]
  refine ⟨?_, ?_, ?_⟩
  · intro hs
    have := (h12.1 0 (by norm_num)).mp hs
    omega
  · exact h12.2.1 (by norm_num [List.chain'_cons, List.chain'_singleton]) 1 (by norm_num) le_rfl
  · exact h21.2.2 (by norm_num [List.chain'_cons, List.chain'_singleton]) 1 (by norm_num) le_rfl

end AlgoTrade
